import Mathlib

/-! Verification development for ardour's metering aggregator
(`libs/ardour/meter.cc`, class `PeakMeter`).

Floating-point level values are modelled as rationals; the sentinel
`-std::numeric_limits<float>::infinity()` / `minus_infinity()` is modelled as
the bottom element of `WithBot ℚ`.  External collaborators that the shown
source only calls through a narrow contract (the four ballistics DSP classes,
`compute_peak`, `accurate_coefficient_to_dB`, `sqrt`, the configuration read
and the `Processor` base class) are modelled either as explicit function
parameters or as definitions whose doc comment starts `Modelled from the
spec:`. -/

/-- Meter level values as stored in the float arrays: a rational or the
minus-infinity sentinel (bottom of `WithBot ℚ`). -/
abbrev MFloat := WithBot ℚ

/-- Modelled from the spec: the `MeterType` bitmask (the enum lives in
ardour/types.h, which is not among the shown sources).  The spec only
requires distinct, combinable bits for the listed standards plus the two
derived read-only views. -/
def MeterMaxSignal : ℕ := 1

/-- MeterMaxPeak bit of the MeterType bitmask. -/
def MeterMaxPeak : ℕ := 2

/-- MeterPeak bit of the MeterType bitmask. -/
def MeterPeak : ℕ := 4

/-- MeterKrms bit of the MeterType bitmask. -/
def MeterKrms : ℕ := 8

/-- MeterK20 bit of the MeterType bitmask. -/
def MeterK20 : ℕ := 16

/-- MeterK14 bit of the MeterType bitmask. -/
def MeterK14 : ℕ := 32

/-- MeterIEC1DIN bit of the MeterType bitmask. -/
def MeterIEC1DIN : ℕ := 64

/-- MeterIEC1NOR bit of the MeterType bitmask. -/
def MeterIEC1NOR : ℕ := 128

/-- MeterIEC2BBC bit of the MeterType bitmask. -/
def MeterIEC2BBC : ℕ := 256

/-- MeterIEC2EBU bit of the MeterType bitmask. -/
def MeterIEC2EBU : ℕ := 512

/-- MeterVU bit of the MeterType bitmask. -/
def MeterVU : ℕ := 1024

/-- MeterK12 bit of the MeterType bitmask. -/
def MeterK12 : ℕ := 2048

/-- Channel layout: the MIDI and audio channel counts
(`ARDOUR::ChanCount` restricted to the two data types the meter uses;
`n_total` is their sum, indices `[0, midi)` are MIDI, the rest audio). -/
structure ChanCount where
  midi : ℕ
  audio : ℕ
deriving DecidableEq

/-- Total channel count of a layout (`ChanCount::n_total`). -/
def ChanCount.n_total (c : ChanCount) : ℕ := c.midi + c.audio

/-- Modelled from the spec: the internal state of one external BallisticsUnit
(a `Kmeterdsp` / `Iec1ppmdsp` / `Iec2ppmdsp` / `Vumeterdsp` instance, all
outside the shown sources).  The aggregator only constructs, resets, feeds
and reads the unit, so its private filter state is abstracted to the linear
level that `read()` reports. -/
abbrev BallisticState := ℚ

/-- Modelled from the spec: `reset()` clears a ballistics unit's internal
state. -/
def Ballistics.reset (_u : BallisticState) : BallisticState := 0

/-- Modelled from the spec: `read()` returns the unit's current linear
level. -/
def Ballistics.read (u : BallisticState) : BallisticState := u

/-- Modelled from the spec: the state of a freshly constructed ballistics
unit (`new Kmeterdsp()` and friends). -/
def Ballistics.fresh : BallisticState := 0

/-- The external `process(samples, nframes)` implementations of the four
ballistics families, passed to the Capture stage as parameters: the spec
declares the DSP algorithms out of scope. -/
structure DspOps where
  kproc : BallisticState → List ℚ → BallisticState
  iec1proc : BallisticState → List ℚ → BallisticState
  iec2proc : BallisticState → List ℚ → BallisticState
  vuproc : BallisticState → List ℚ → BallisticState

/-- Modelled from the spec: one MIDI event as the Capture stage sees it — a
type tag (note-on or not) and the velocity byte `buffer()[2]`. -/
structure MidiEvent where
  isNoteOn : Bool
  velocity : ℕ
deriving DecidableEq

/-- Modelled from the spec: a MIDI buffer — its event list and its
`capacity()`. -/
structure MidiBuffer where
  events : List MidiEvent
  capacity : ℕ
deriving DecidableEq

/-- The empty MIDI buffer, used as the out-of-range default. -/
def MidiBuffer.empty : MidiBuffer := ⟨[], 0⟩

/-- Modelled from the spec: an audio buffer — its `silent()` flag and the
block of samples `data()[0..nframes)`. -/
structure AudioBuffer where
  silent : Bool
  samples : List ℚ
deriving DecidableEq

/-- The empty (silent) audio buffer, used as the out-of-range default. -/
def AudioBuffer.empty : AudioBuffer := ⟨true, []⟩

/-- Modelled from the spec: a BufferSet exposing the MIDI event streams and
audio sample blocks supplied to one Capture call. -/
structure BufferSet where
  midi : List MidiBuffer
  audio : List AudioBuffer
deriving DecidableEq

/-- The PeakMeter state: the per-channel metric arrays, the four
ballistics-family unit arrays, the negotiated layout `current_meters`, the
`_meter_type` bitmask and the two activity flags inherited from
`Processor`. -/
structure PeakMeter where
  peak_signal : List ℚ
  visible_peak_power : List MFloat
  max_peak_signal : List ℚ
  max_peak_power : List MFloat
  kmeter : List BallisticState
  iec1meter : List BallisticState
  iec2meter : List BallisticState
  vumeter : List BallisticState
  current_meters : ChanCount
  meter_type : ℕ
  active : Bool
  pending_active : Bool
deriving DecidableEq

/-- State after the `PeakMeter` constructor: empty arrays, `_meter_type =
MeterPeak`, `_pending_active = true`. -/
def PeakMeter.initial : PeakMeter :=
  { peak_signal := [], visible_peak_power := [], max_peak_signal := [],
    max_peak_power := [], kmeter := [], iec1meter := [], iec2meter := [],
    vumeter := [], current_meters := ⟨0, 0⟩, meter_type := MeterPeak,
    active := false, pending_active := true }

/-- The combined K-family mask `MeterKrms | MeterK20 | MeterK14 | MeterK12`
used by `run` and `set_type`. -/
def kFamilyMask : ℕ := MeterKrms ||| MeterK20 ||| MeterK14 ||| MeterK12

/-- The combined IEC1 mask `MeterIEC1DIN | MeterIEC1NOR`. -/
def iec1FamilyMask : ℕ := MeterIEC1DIN ||| MeterIEC1NOR

/-- The combined IEC2 mask `MeterIEC2BBC | MeterIEC2EBU`. -/
def iec2FamilyMask : ℕ := MeterIEC2BBC ||| MeterIEC2EBU

/-- Modelled from the spec: the external `compute_peak (buf, nframes,
current)` primitive used by the Capture stage — the running maximum of
`current` and the absolute values of the block's samples. -/
def compute_peak (data : List ℚ) (current : ℚ) : ℚ :=
  data.foldl (fun a x => max a |x|) current

/-- The peak absolute sample of a block (used to restate `compute_peak` as a
two-argument max, the way the spec phrases it). -/
def peakAbs (data : List ℚ) : ℚ :=
  data.foldl (fun a x => max a |x|) 0

/-- One step of the MIDI event scan in `PeakMeter::run`: a note-on keeps the
largest `velocity/127` seen, any other event adds `1/capacity`, clamped to
`1.0`. -/
def midiStep (cap : ℕ) (val : ℚ) (e : MidiEvent) : ℚ :=
  if e.isNoteOn then
    if (e.velocity : ℚ) / 127 > val then (e.velocity : ℚ) / 127 else val
  else
    if val + 1 / (cap : ℚ) > 1 then 1 else val + 1 / (cap : ℚ)

/-- The value `val` computed for one MIDI buffer by the event scan in
`PeakMeter::run` (starting from `0.0f`). -/
def midiVal (buf : MidiBuffer) : ℚ :=
  buf.events.foldl (midiStep buf.capacity) 0

/-- The body of the audio loop in `PeakMeter::run` for loop index `i`
(flat channel index `n = n_midi + i`): update the raw peak from the block
(silent blocks force it to `0`), then feed each family's unit `i` when that
family's bit is set in `_meter_type`. -/
def audioStep (ops : DspOps) (bufs : BufferSet) (n_midi : ℕ) (mtype : ℕ)
    (t : PeakMeter) (i : ℕ) : PeakMeter :=
  let n := n_midi + i
  let buf := bufs.audio.getD i AudioBuffer.empty
  let t1 :=
    if buf.silent then { t with peak_signal := t.peak_signal.set n 0 }
    else { t with peak_signal :=
      t.peak_signal.set n (compute_peak buf.samples (t.peak_signal.getD n 0)) }
  let t2 :=
    if mtype &&& kFamilyMask ≠ 0 then
      { t1 with kmeter := t1.kmeter.set i (ops.kproc (t1.kmeter.getD i 0) buf.samples) }
    else t1
  let t3 :=
    if mtype &&& iec1FamilyMask ≠ 0 then
      { t2 with iec1meter := t2.iec1meter.set i (ops.iec1proc (t2.iec1meter.getD i 0) buf.samples) }
    else t2
  let t4 :=
    if mtype &&& iec2FamilyMask ≠ 0 then
      { t3 with iec2meter := t3.iec2meter.set i (ops.iec2proc (t3.iec2meter.getD i 0) buf.samples) }
    else t3
  if mtype &&& MeterVU ≠ 0 then
    { t4 with vumeter := t4.vumeter.set i (ops.vuproc (t4.vumeter.getD i 0) buf.samples) }
  else t4

/-- `PeakMeter::run` (the Capture stage): early-out when inactive with no
pending activation; meter the first `min(configured, supplied)` MIDI then
audio channels; zero every excess peak; finally `_active =
_pending_active`. -/
def PeakMeter.run (ops : DspOps) (s : PeakMeter) (bufs : BufferSet) : PeakMeter :=
  if s.active = false ∧ s.pending_active = false then s
  else
    let n_audio := min s.current_meters.audio bufs.audio.length
    let n_midi := min s.current_meters.midi bufs.midi.length
    let ps1 := (List.range n_midi).foldl
      (fun l n => l.set n (max (midiVal (bufs.midi.getD n MidiBuffer.empty)) (l.getD n 0)))
      s.peak_signal
    let s1 := { s with peak_signal := ps1 }
    let s2 := (List.range n_audio).foldl (audioStep ops bufs n_midi s.meter_type) s1
    let ps3 := (List.range' (n_midi + n_audio) (s2.peak_signal.length - (n_midi + n_audio))).foldl
      (fun l i => l.set i (0 : ℚ)) s2.peak_signal
    { s2 with peak_signal := ps3, active := s.pending_active }

/-- `PeakMeter::reset`: zero every raw peak and reset every ballistics unit,
iterating the unit arrays up to `_kmeter.size()`. -/
def PeakMeter.reset (s : PeakMeter) : PeakMeter :=
  let ps := (List.range s.peak_signal.length).foldl
    (fun l i => l.set i (0 : ℚ)) s.peak_signal
  let km := (List.range s.kmeter.length).foldl
    (fun l n => l.set n (Ballistics.reset (l.getD n 0))) s.kmeter
  let i1 := (List.range s.kmeter.length).foldl
    (fun l n => l.set n (Ballistics.reset (l.getD n 0))) s.iec1meter
  let i2 := (List.range s.kmeter.length).foldl
    (fun l n => l.set n (Ballistics.reset (l.getD n 0))) s.iec2meter
  let vu := (List.range s.kmeter.length).foldl
    (fun l n => l.set n (Ballistics.reset (l.getD n 0))) s.vumeter
  { s with peak_signal := ps, kmeter := km, iec1meter := i1, iec2meter := i2,
           vumeter := vu }

/-- `PeakMeter::reset_max`: maxima back to their baselines (`-inf` power,
`0` signal) over `_max_peak_power.size()`, and visible levels back to `0`
for MIDI channels and `-inf` for the rest over `_peak_signal.size()`. -/
def PeakMeter.reset_max (s : PeakMeter) : PeakMeter :=
  let mp := (List.range s.max_peak_power.length).foldl
    (fun l i => l.set i (⊥ : MFloat)) s.max_peak_power
  let ms := (List.range s.max_peak_power.length).foldl
    (fun l i => l.set i (0 : ℚ)) s.max_peak_signal
  let n_midi := min s.peak_signal.length s.current_meters.midi
  let vis := (List.range s.peak_signal.length).foldl
    (fun l n => l.set n (if n < n_midi then ((0 : ℚ) : MFloat) else ⊥))
    s.visible_peak_power
  { s with max_peak_power := mp, max_peak_signal := ms,
           visible_peak_power := vis }

/-- The pop-back loop of `reset_max_channels` on the four metric arrays: the
`while (_peak_signal.size() > limit)` loop runs `size - limit` times,
popping the tail of all four arrays each time. -/
def PeakMeter.shrinkMetrics (limit : ℕ) (s : PeakMeter) : PeakMeter :=
  (List.range (s.peak_signal.length - limit)).foldl
    (fun t _ =>
      { t with peak_signal := t.peak_signal.dropLast,
               visible_peak_power := t.visible_peak_power.dropLast,
               max_peak_signal := t.max_peak_signal.dropLast,
               max_peak_power := t.max_peak_power.dropLast }) s

/-- The push-back loop of `reset_max_channels` on the four metric arrays: the
`while (_peak_signal.size() < limit)` loop runs `limit - size` times,
appending `0` / `minus_infinity()` baselines. -/
def PeakMeter.growMetrics (limit : ℕ) (s : PeakMeter) : PeakMeter :=
  (List.range (limit - s.peak_signal.length)).foldl
    (fun t _ =>
      { t with peak_signal := t.peak_signal ++ [0],
               visible_peak_power := t.visible_peak_power ++ [⊥],
               max_peak_signal := t.max_peak_signal ++ [0],
               max_peak_power := t.max_peak_power ++ [⊥] }) s

/-- The delete/pop-back loop of `reset_max_channels` on the four ballistics
unit arrays: `while (_kmeter.size() > n_audio)` runs `size - n_audio` times,
popping the tail of all four in lockstep. -/
def PeakMeter.shrinkUnits (n_audio : ℕ) (s : PeakMeter) : PeakMeter :=
  (List.range (s.kmeter.length - n_audio)).foldl
    (fun t _ =>
      { t with kmeter := t.kmeter.dropLast,
               iec1meter := t.iec1meter.dropLast,
               iec2meter := t.iec2meter.dropLast,
               vumeter := t.vumeter.dropLast }) s

/-- The allocation/push-back loop of `reset_max_channels` on the four
ballistics unit arrays: `while (_kmeter.size() < n_audio)` runs
`n_audio - size` times, pushing one fresh unit onto each array. -/
def PeakMeter.growUnits (n_audio : ℕ) (s : PeakMeter) : PeakMeter :=
  (List.range (n_audio - s.kmeter.length)).foldl
    (fun t _ =>
      { t with kmeter := t.kmeter ++ [Ballistics.fresh],
               iec1meter := t.iec1meter ++ [Ballistics.fresh],
               iec2meter := t.iec2meter ++ [Ballistics.fresh],
               vumeter := t.vumeter ++ [Ballistics.fresh] }) s

/-- `PeakMeter::reset_max_channels`: resize the metric arrays to
`chn.n_total()`, resize the four unit arrays to `chn.n_audio()` in lockstep,
then `reset()` and `reset_max()`. -/
def PeakMeter.reset_max_channels (s : PeakMeter) (chn : ChanCount) : PeakMeter :=
  let limit := chn.n_total
  let n_audio := chn.audio
  let s1 := PeakMeter.growMetrics limit (PeakMeter.shrinkMetrics limit s)
  let s2 := PeakMeter.growUnits n_audio (PeakMeter.shrinkUnits n_audio s1)
  PeakMeter.reset_max (PeakMeter.reset s2)

/-- Modelled from the spec: `Processor::configure_io` (the base class is not
among the shown sources) accepts and applies the negotiated layout,
reporting success. -/
def processorConfigureBase : Bool := true

/-- `PeakMeter::configure_io`: reject any non-1:1 layout untouched;
otherwise store the layout in `current_meters`, run `reset_max_channels`,
and return the base class result. -/
def PeakMeter.configure_io_impl (s : PeakMeter) (inc outc : ChanCount) :
    Bool × PeakMeter :=
  if outc ≠ inc then (false, s)
  else
    let s1 := { s with current_meters := inc }
    (processorConfigureBase, PeakMeter.reset_max_channels s1 inc)

/-- `PeakMeter::reflect_inputs`: zero the raw peaks of channels beyond the
live total, reset (without deallocating) the units of audio channels beyond
the live audio count (skipping indices past `_kmeter.size()`), adopt the
live layout and `reset_max()`.  The ConfigurationChanged notification
carries no state and is not modelled. -/
def PeakMeter.reflect_inputs (s : PeakMeter) (inc : ChanCount) : PeakMeter :=
  let ps := (List.range' inc.n_total (s.current_meters.n_total - inc.n_total)).foldl
    (fun l i => if i < l.length then l.set i (0 : ℚ) else l) s.peak_signal
  let s1 := { s with peak_signal := ps }
  let s2 := (List.range' inc.audio (s.current_meters.audio - inc.audio)).foldl
    (fun t i =>
      if t.kmeter.length ≤ i then t
      else
        { t with kmeter := t.kmeter.set i (Ballistics.reset (t.kmeter.getD i 0)),
                 iec1meter := t.iec1meter.set i (Ballistics.reset (t.iec1meter.getD i 0)),
                 iec2meter := t.iec2meter.set i (Ballistics.reset (t.iec2meter.getD i 0)),
                 vumeter := t.vumeter.set i (Ballistics.reset (t.vumeter.getD i 0)) }) s1
  PeakMeter.reset_max { s2 with current_meters := inc }

/-- The audio falloff rate chosen at the top of `PeakMeter::meter`: the fixed
`0.12f` (24 dB over 2 s at the 100 Hz reference tick) when a K20/K14/K12 bit
is set, else the configured falloff scaled by `0.01f`. -/
def meterAudioFalloff (mtype : ℕ) (config_falloff : ℚ) : ℚ :=
  if mtype &&& (MeterK20 ||| MeterK14 ||| MeterK12) ≠ 0 then 12 / 100
  else config_falloff * (1 / 100)

/-- The new MIDI visible level in `PeakMeter::meter`: adopt `new_peak`
immediately when the falloff is zero or the level rose, otherwise apply the
square-root decay `visible - sqrt(visible * falloff * 0.0002)`, clamped to
`0` below `1/512`. -/
def midiNewVis (sq : ℚ → ℚ) (midi_falloff : ℚ) (new_peak : ℚ) (vis : MFloat) :
    MFloat :=
  if midi_falloff = 0 ∨ (new_peak : MFloat) > vis then (new_peak : MFloat)
  else
    vis.map (fun q =>
      let x := q - sq (q * midi_falloff * (1 / 5000))
      if x < 1 / 512 then 0 else x)

/-- The dB conversion applied to an audio channel's grabbed peak in
`PeakMeter::meter`: `accurate_coefficient_to_dB` (external, passed as `dB`)
for positive peaks, the minus-infinity sentinel otherwise. -/
def audioLevel (dB : ℚ → ℚ) (new_peak : ℚ) : MFloat :=
  if 0 < new_peak then ((dB new_peak : ℚ) : MFloat) else ⊥

/-- The new audio visible level in `PeakMeter::meter`: adopt `level`
immediately when the falloff is zero or the level rose, otherwise decrement
by the falloff, floored at minus infinity. -/
def audioNewVis (audio_falloff : ℚ) (level vis : MFloat) : MFloat :=
  if audio_falloff = 0 ∨ level > vis then level
  else max (vis.map (fun q => q - audio_falloff)) ⊥

/-- The body of the per-channel loop of `PeakMeter::meter` for flat index
`n`: grab-and-clear the raw peak, then the MIDI branch (maxima forced to
their baselines, square-root falloff) or the audio branch (update both
maxima, dB conversion, linear falloff). -/
def meterChan (dB sq : ℚ → ℚ) (n_midi : ℕ) (midi_falloff audio_falloff : ℚ)
    (t : PeakMeter) (n : ℕ) : PeakMeter :=
  let new_peak := t.peak_signal.getD n 0
  let t1 := { t with peak_signal := t.peak_signal.set n 0 }
  if n < n_midi then
    { t1 with
      max_peak_power := t1.max_peak_power.set n ⊥,
      max_peak_signal := t1.max_peak_signal.set n 0,
      visible_peak_power := t1.visible_peak_power.set n
        (midiNewVis sq midi_falloff new_peak (t1.visible_peak_power.getD n ⊥)) }
  else
    let level := audioLevel dB new_peak
    { t1 with
      max_peak_signal := t1.max_peak_signal.set n
        (max new_peak (t1.max_peak_signal.getD n 0)),
      max_peak_power := t1.max_peak_power.set n
        (max level (t1.max_peak_power.getD n ⊥)),
      visible_peak_power := t1.visible_peak_power.set n
        (audioNewVis audio_falloff level (t1.visible_peak_power.getD n ⊥)) }

/-- `PeakMeter::meter` (the Reduction stage): early-out when inactive;
silently skip the whole tick when the four metric arrays disagree in length;
otherwise run the per-channel loop over
`min(_peak_signal.size(), current_meters.n_total())` channels.  The external
`accurate_coefficient_to_dB` and `sqrt` are passed as `dB` and `sq`, the
polled `Config->get_meter_falloff()` as `config_falloff`. -/
def PeakMeter.meter (dB sq : ℚ → ℚ) (config_falloff : ℚ) (s : PeakMeter) :
    PeakMeter :=
  if s.active = false then s
  else if s.visible_peak_power.length ≠ s.peak_signal.length
      ∨ s.max_peak_power.length ≠ s.peak_signal.length
      ∨ s.max_peak_signal.length ≠ s.peak_signal.length then s
  else
    (List.range (min s.peak_signal.length s.current_meters.n_total)).foldl
      (meterChan dB sq (min s.peak_signal.length s.current_meters.midi)
        (config_falloff * (1 / 100)) (meterAudioFalloff s.meter_type config_falloff))
      s

/-- Modelled from the spec: `PeakMeter::peak_power` (declared in the header,
which is not among the shown sources) returns `visible_level[n]` directly,
with the minus-infinity sentinel for an out-of-range index. -/
def PeakMeter.peak_power (s : PeakMeter) (n : ℕ) : MFloat :=
  if n < s.visible_peak_power.length then s.visible_peak_power.getD n ⊥ else ⊥

/-- `PeakMeter::meter_level`: dispatch on the requested type; ballistics
families return `dB(unit.read())` under the `CHECKSIZE` guard
`n < size + n_midi && n >= n_midi`, `MeterPeak` delegates to `peak_power`,
the maxima views are range-guarded, every other path returns
`minus_infinity()` (the switch default shares the `MeterMaxPeak` branch). -/
def PeakMeter.meter_level (dB : ℚ → ℚ) (s : PeakMeter) (n : ℕ) (t : ℕ) :
    MFloat :=
  if t = MeterKrms ∨ t = MeterK20 ∨ t = MeterK14 ∨ t = MeterK12 then
    if n < s.kmeter.length + s.current_meters.midi ∧ s.current_meters.midi ≤ n then
      ((dB (Ballistics.read (s.kmeter.getD (n - s.current_meters.midi) 0)) : ℚ) : MFloat)
    else ⊥
  else if t = MeterIEC1DIN ∨ t = MeterIEC1NOR then
    if n < s.iec1meter.length + s.current_meters.midi ∧ s.current_meters.midi ≤ n then
      ((dB (Ballistics.read (s.iec1meter.getD (n - s.current_meters.midi) 0)) : ℚ) : MFloat)
    else ⊥
  else if t = MeterIEC2BBC ∨ t = MeterIEC2EBU then
    if n < s.iec2meter.length + s.current_meters.midi ∧ s.current_meters.midi ≤ n then
      ((dB (Ballistics.read (s.iec2meter.getD (n - s.current_meters.midi) 0)) : ℚ) : MFloat)
    else ⊥
  else if t = MeterVU then
    if n < s.vumeter.length + s.current_meters.midi ∧ s.current_meters.midi ≤ n then
      ((dB (Ballistics.read (s.vumeter.getD (n - s.current_meters.midi) 0)) : ℚ) : MFloat)
    else ⊥
  else if t = MeterPeak then PeakMeter.peak_power s n
  else if t = MeterMaxSignal then
    if n < s.max_peak_signal.length then ((s.max_peak_signal.getD n 0 : ℚ) : MFloat)
    else ⊥
  else
    if n < s.max_peak_power.length then s.max_peak_power.getD n ⊥
    else ⊥

/-- `PeakMeter::set_type`: no-op when unchanged; otherwise store the new
mask and reset, for each family whose bit is set in the NEW mask, the first
`current_meters.n_audio()` units of that family.  The TypeChanged
notification carries no state and is not modelled. -/
def PeakMeter.set_type (s : PeakMeter) (t : ℕ) : PeakMeter :=
  if t = s.meter_type then s
  else
    let s1 := { s with meter_type := t }
    let s2 :=
      if t &&& kFamilyMask ≠ 0 then
        let km := (List.range s1.current_meters.audio).foldl
          (fun l n => l.set n (Ballistics.reset (l.getD n 0))) s1.kmeter
        { s1 with kmeter := km }
      else s1
    let s3 :=
      if t &&& iec1FamilyMask ≠ 0 then
        let i1 := (List.range s2.current_meters.audio).foldl
          (fun l n => l.set n (Ballistics.reset (l.getD n 0))) s2.iec1meter
        { s2 with iec1meter := i1 }
      else s2
    let s4 :=
      if t &&& iec2FamilyMask ≠ 0 then
        let i2 := (List.range s3.current_meters.audio).foldl
          (fun l n => l.set n (Ballistics.reset (l.getD n 0))) s3.iec2meter
        { s3 with iec2meter := i2 }
      else s3
    if t &&& MeterVU ≠ 0 then
      let vu := (List.range s4.current_meters.audio).foldl
        (fun l n => l.set n (Ballistics.reset (l.getD n 0))) s4.vumeter
      { s4 with vumeter := vu }
    else s4

/-- The destructor loop of `PeakMeter::~PeakMeter`: `while (_kmeter.size() >
0)` pops the tail of all four unit arrays, running `_kmeter.size()`
times. -/
def PeakMeter.destroy_units (s : PeakMeter) : PeakMeter :=
  (List.range s.kmeter.length).foldl
    (fun t _ =>
      { t with kmeter := t.kmeter.dropLast,
               iec1meter := t.iec1meter.dropLast,
               iec2meter := t.iec2meter.dropLast,
               vumeter := t.vumeter.dropLast }) s

/-- The four metric arrays agree in length with `_peak_signal` (the
condition whose failure makes `PeakMeter::meter` skip its tick, and the
invariant asserted by `reset_max_channels`). -/
def PeakMeter.metricsAligned (s : PeakMeter) : Prop :=
  s.visible_peak_power.length = s.peak_signal.length ∧
  s.max_peak_signal.length = s.peak_signal.length ∧
  s.max_peak_power.length = s.peak_signal.length

instance (s : PeakMeter) : Decidable s.metricsAligned := by
  unfold PeakMeter.metricsAligned; infer_instance

/-- The four ballistics-family unit arrays agree in length with `_kmeter`
(the lockstep invariant asserted by `reset_max_channels`). -/
def PeakMeter.unitsAligned (s : PeakMeter) : Prop :=
  s.iec1meter.length = s.kmeter.length ∧
  s.iec2meter.length = s.kmeter.length ∧
  s.vumeter.length = s.kmeter.length

instance (s : PeakMeter) : Decidable s.unitsAligned := by
  unfold PeakMeter.unitsAligned; infer_instance

/-- MIDI channels never carry a running maximum: indices below the MIDI
count hold the `-inf` / `0` baselines (established by `reset_max` and
re-established by every Reduction tick). -/
def PeakMeter.midiMaxBase (s : PeakMeter) : Prop :=
  ∀ i < s.current_meters.midi,
    s.max_peak_power.getD i ⊥ = ⊥ ∧ s.max_peak_signal.getD i 0 = 0

instance (s : PeakMeter) : Decidable s.midiMaxBase := by
  unfold PeakMeter.midiMaxBase; infer_instance

/-- Concrete state for the type-selection example: one audio channel, K and
VU selected, units holding accumulated nonzero internal state. -/
def exC1 : PeakMeter :=
  { peak_signal := [0], visible_peak_power := [⊥], max_peak_signal := [0],
    max_peak_power := [⊥], kmeter := [5], iec1meter := [7], iec2meter := [7],
    vumeter := [9], current_meters := ⟨0, 1⟩,
    meter_type := MeterKrms ||| MeterVU, active := true, pending_active := true }

/-- Concrete state for the maxima-monotonicity example: two audio channels
with a pending raw peak and an accumulated maximum. -/
def exC2 : PeakMeter :=
  { peak_signal := [0, 1/2], visible_peak_power := [⊥, ⊥],
    max_peak_signal := [0, 1/4], max_peak_power := [⊥, ⊥], kmeter := [],
    iec1meter := [], iec2meter := [], vumeter := [],
    current_meters := ⟨0, 2⟩, meter_type := MeterPeak, active := true,
    pending_active := true }

/-- Concrete state for the audio-falloff example: one audio channel with a
positive pending raw peak and a finite previous visible level. -/
def exC3 : PeakMeter :=
  { peak_signal := [1], visible_peak_power := [((0 : ℚ) : MFloat)],
    max_peak_signal := [0], max_peak_power := [⊥], kmeter := [],
    iec1meter := [], iec2meter := [], vumeter := [],
    current_meters := ⟨0, 1⟩, meter_type := MeterPeak, active := true,
    pending_active := true }

/-- Concrete state for the skip-guard counterexample: the four metric arrays
agree in length (1) but the configured layout totals 2 channels. -/
def cexC4 : PeakMeter :=
  { peak_signal := [1], visible_peak_power := [⊥], max_peak_signal := [0],
    max_peak_power := [⊥], kmeter := [], iec1meter := [], iec2meter := [],
    vumeter := [], current_meters := ⟨0, 2⟩, meter_type := MeterPeak,
    active := true, pending_active := true }

/-- Concrete state with genuinely misaligned metric arrays, for the amended
skip-guard example. -/
def exC4mis : PeakMeter :=
  { peak_signal := [1], visible_peak_power := [], max_peak_signal := [],
    max_peak_power := [], kmeter := [], iec1meter := [], iec2meter := [],
    vumeter := [], current_meters := ⟨0, 1⟩, meter_type := MeterPeak,
    active := true, pending_active := true }

/-- Concrete state for the reconfiguration example: one MIDI and one audio
channel already configured, arrays of length 1 holding stale values. -/
def exC5 : PeakMeter :=
  { peak_signal := [3], visible_peak_power := [((2 : ℚ) : MFloat)],
    max_peak_signal := [4], max_peak_power := [((1 : ℚ) : MFloat)],
    kmeter := [5], iec1meter := [5], iec2meter := [5], vumeter := [5],
    current_meters := ⟨1, 1⟩, meter_type := MeterPeak, active := true,
    pending_active := true }

/-- Identity-ish DSP processors used by the Capture examples. -/
def opsC7 : DspOps := ⟨fun u _ => u, fun u _ => u, fun u _ => u, fun u _ => u⟩

/-- One-audio-channel state with an accumulated raw peak, for the Capture
examples. -/
def exC7 : PeakMeter :=
  { peak_signal := [1/2], visible_peak_power := [⊥], max_peak_signal := [0],
    max_peak_power := [⊥], kmeter := [0], iec1meter := [0], iec2meter := [0],
    vumeter := [0], current_meters := ⟨0, 1⟩, meter_type := MeterPeak,
    active := true, pending_active := true }

/-- A non-silent one-block buffer set with peak absolute sample 2. -/
def bufsC7 : BufferSet := ⟨[], [⟨false, [1, -2]⟩]⟩

/-- A silent one-block buffer set. -/
def bufsC7s : BufferSet := ⟨[], [⟨true, [0, 0]⟩]⟩

/-- Identity-ish DSP processors used by the MIDI Capture example. -/
def opsC8 : DspOps := ⟨fun u _ => u, fun u _ => u, fun u _ => u, fun u _ => u⟩

/-- One-MIDI-plus-one-audio-channel state for the MIDI Capture example. -/
def exC8 : PeakMeter :=
  { peak_signal := [0, 1/10], visible_peak_power := [⊥, ⊥],
    max_peak_signal := [0, 0], max_peak_power := [⊥, ⊥], kmeter := [0],
    iec1meter := [0], iec2meter := [0], vumeter := [0],
    current_meters := ⟨1, 1⟩, meter_type := MeterPeak, active := true,
    pending_active := true }

/-- A buffer set carrying one note-on event of velocity 64 on the MIDI
channel and a silent audio block. -/
def bufsC8 : BufferSet := ⟨[⟨[⟨true, 64⟩], 1024⟩], [⟨true, []⟩]⟩

/-- One-MIDI-plus-one-audio-channel state with a K unit holding level 1/2,
for the query example. -/
def exC9 : PeakMeter :=
  { peak_signal := [0, 0], visible_peak_power := [((0 : ℚ) : MFloat), ⊥],
    max_peak_signal := [0, 0], max_peak_power := [⊥, ⊥], kmeter := [1/2],
    iec1meter := [0], iec2meter := [0], vumeter := [0],
    current_meters := ⟨1, 1⟩, meter_type := MeterPeak, active := true,
    pending_active := true }

/-- A lockstep-aligned two-audio-unit state for the invariant example. -/
def exC10 : PeakMeter :=
  { peak_signal := [0, 0], visible_peak_power := [⊥, ⊥],
    max_peak_signal := [0, 0], max_peak_power := [⊥, ⊥], kmeter := [1, 2],
    iec1meter := [3, 4], iec2meter := [5, 6], vumeter := [7, 8],
    current_meters := ⟨0, 2⟩, meter_type := MeterPeak, active := true,
    pending_active := true }

/-- Identity-ish DSP processors used by the lockstep example. -/
def opsC10 : DspOps := ⟨fun u _ => u, fun u _ => u, fun u _ => u, fun u _ => u⟩

/-! Helper lemmas about `List.set` / `List.getD` and folds of per-index
updates, used to characterise the per-channel loops. -/

lemma getD_set_self {α : Type} (l : List α) (i : ℕ) (a d : α) (h : i < l.length) :
    (l.set i a).getD i d = a := by
  simp [List.getD, List.getElem?_set_self, h]

lemma getD_set_ne {α : Type} (l : List α) (i j : ℕ) (a d : α) (h : i ≠ j) :
    (l.set i a).getD j d = l.getD j d := by
  simp [List.getD, List.getElem?_set_ne h]

lemma getD_of_length_le {α : Type} (l : List α) (i : ℕ) (d : α) (h : l.length ≤ i) :
    l.getD i d = d := by
  simp [List.getD, List.getElem?_eq_none h]

lemma setFold_length {α : Type} (f : List α → ℕ → List α) (g : ℕ → α → α) (d : α)
    (hf : ∀ l n, f l n = l.set n (g n (l.getD n d))) :
    ∀ (L : List ℕ) (xs : List α), (L.foldl f xs).length = xs.length := by
  intro L
  induction L with
  | nil => intro xs; rfl
  | cons a L ih =>
      intro xs
      rw [List.foldl_cons, ih, hf, List.length_set]

lemma setFold_getD_notMem {α : Type} (f : List α → ℕ → List α) (g : ℕ → α → α) (d : α)
    (hf : ∀ l n, f l n = l.set n (g n (l.getD n d))) :
    ∀ (L : List ℕ) (xs : List α) (i : ℕ), i ∉ L →
      (L.foldl f xs).getD i d = xs.getD i d := by
  intro L
  induction L with
  | nil => intro xs i _; rfl
  | cons a L ih =>
      intro xs i hi
      rw [List.mem_cons, not_or] at hi
      rw [List.foldl_cons, ih _ _ hi.2, hf,
        getD_set_ne _ _ _ _ _ (fun h => hi.1 h.symm)]

lemma setFold_range_getD {α : Type} (f : List α → ℕ → List α) (g : ℕ → α → α) (d : α)
    (hf : ∀ l n, f l n = l.set n (g n (l.getD n d))) :
    ∀ (m : ℕ) (xs : List α) (i : ℕ),
      ((List.range m).foldl f xs).getD i d =
        if i < m ∧ i < xs.length then g i (xs.getD i d) else xs.getD i d := by
  intro m
  induction m with
  | zero => intro xs i; simp
  | succ m ih =>
      intro xs i
      rw [List.range_succ, List.foldl_append, List.foldl_cons, List.foldl_nil, hf]
      have hXlen : ((List.range m).foldl f xs).length = xs.length :=
        setFold_length f g d hf _ _
      by_cases him : i < m
      · rw [getD_set_ne _ _ _ _ _ (by omega), ih]
        by_cases hlen : i < xs.length
        · simp [him, hlen, Nat.lt_succ_of_lt him]
        · simp [him, hlen]
      · by_cases heq : i = m
        · subst heq
          by_cases hlen : i < xs.length
          · rw [getD_set_self _ _ _ _ (by rw [hXlen]; exact hlen)]
            have hX : ((List.range i).foldl f xs).getD i d = xs.getD i d := by
              rw [ih]; simp [him]
            rw [hX]
            simp [hlen, Nat.lt_succ_self]
          · rw [getD_of_length_le _ _ _ (by rw [List.length_set, hXlen]; omega)]
            rw [getD_of_length_le xs _ _ (by omega)]
            simp [hlen]
        · rw [getD_set_ne _ _ _ _ _ (fun h => heq h.symm), ih]
          have h1 : ¬ i < m + 1 := by omega
          simp [him, h1]

/-! Characterisation of the per-channel loop of `PeakMeter::meter`. -/

lemma meterChan_fixed (dB sq : ℚ → ℚ) (n_midi : ℕ) (mf af : ℚ)
    (t : PeakMeter) (k : ℕ) :
    (meterChan dB sq n_midi mf af t k).kmeter = t.kmeter ∧
    (meterChan dB sq n_midi mf af t k).iec1meter = t.iec1meter ∧
    (meterChan dB sq n_midi mf af t k).iec2meter = t.iec2meter ∧
    (meterChan dB sq n_midi mf af t k).vumeter = t.vumeter ∧
    (meterChan dB sq n_midi mf af t k).current_meters = t.current_meters ∧
    (meterChan dB sq n_midi mf af t k).meter_type = t.meter_type ∧
    (meterChan dB sq n_midi mf af t k).active = t.active ∧
    (meterChan dB sq n_midi mf af t k).pending_active = t.pending_active := by
  unfold meterChan
  by_cases h : k < n_midi <;> simp [h]

lemma meterChan_len (dB sq : ℚ → ℚ) (n_midi : ℕ) (mf af : ℚ)
    (t : PeakMeter) (k : ℕ) :
    (meterChan dB sq n_midi mf af t k).peak_signal.length = t.peak_signal.length ∧
    (meterChan dB sq n_midi mf af t k).visible_peak_power.length = t.visible_peak_power.length ∧
    (meterChan dB sq n_midi mf af t k).max_peak_signal.length = t.max_peak_signal.length ∧
    (meterChan dB sq n_midi mf af t k).max_peak_power.length = t.max_peak_power.length := by
  unfold meterChan
  by_cases h : k < n_midi <;> simp [h]

lemma meterChan_getD_ne (dB sq : ℚ → ℚ) (n_midi : ℕ) (mf af : ℚ)
    (t : PeakMeter) (k i : ℕ) (hik : i ≠ k) :
    (meterChan dB sq n_midi mf af t k).peak_signal.getD i 0 = t.peak_signal.getD i 0 ∧
    (meterChan dB sq n_midi mf af t k).visible_peak_power.getD i ⊥ = t.visible_peak_power.getD i ⊥ ∧
    (meterChan dB sq n_midi mf af t k).max_peak_signal.getD i 0 = t.max_peak_signal.getD i 0 ∧
    (meterChan dB sq n_midi mf af t k).max_peak_power.getD i ⊥ = t.max_peak_power.getD i ⊥ := by
  have hk : k ≠ i := fun h => hik h.symm
  unfold meterChan
  by_cases h : k < n_midi <;>
    simp [h, List.getElem?_set_ne hk]

lemma meterChan_getD_midi (dB sq : ℚ → ℚ) (n_midi : ℕ) (mf af : ℚ)
    (t : PeakMeter) (k : ℕ) (hk : k < n_midi)
    (h1 : k < t.peak_signal.length) (h2 : k < t.visible_peak_power.length)
    (h3 : k < t.max_peak_signal.length) (h4 : k < t.max_peak_power.length) :
    (meterChan dB sq n_midi mf af t k).peak_signal.getD k 0 = 0 ∧
    (meterChan dB sq n_midi mf af t k).max_peak_signal.getD k 0 = 0 ∧
    (meterChan dB sq n_midi mf af t k).max_peak_power.getD k ⊥ = ⊥ ∧
    (meterChan dB sq n_midi mf af t k).visible_peak_power.getD k ⊥ =
      midiNewVis sq mf (t.peak_signal.getD k 0) (t.visible_peak_power.getD k ⊥) := by
  unfold meterChan
  simp [hk, List.getElem?_set_eq_of_lt _ h1, List.getElem?_set_eq_of_lt _ h2,
    List.getElem?_set_eq_of_lt _ h3, List.getElem?_set_eq_of_lt _ h4]

lemma meterChan_getD_audio (dB sq : ℚ → ℚ) (n_midi : ℕ) (mf af : ℚ)
    (t : PeakMeter) (k : ℕ) (hk : ¬ k < n_midi)
    (h1 : k < t.peak_signal.length) (h2 : k < t.visible_peak_power.length)
    (h3 : k < t.max_peak_signal.length) (h4 : k < t.max_peak_power.length) :
    (meterChan dB sq n_midi mf af t k).peak_signal.getD k 0 = 0 ∧
    (meterChan dB sq n_midi mf af t k).max_peak_signal.getD k 0 =
      max (t.peak_signal.getD k 0) (t.max_peak_signal.getD k 0) ∧
    (meterChan dB sq n_midi mf af t k).max_peak_power.getD k ⊥ =
      max (audioLevel dB (t.peak_signal.getD k 0)) (t.max_peak_power.getD k ⊥) ∧
    (meterChan dB sq n_midi mf af t k).visible_peak_power.getD k ⊥ =
      audioNewVis af (audioLevel dB (t.peak_signal.getD k 0)) (t.visible_peak_power.getD k ⊥) := by
  unfold meterChan
  simp [hk, List.getElem?_set_eq_of_lt _ h1, List.getElem?_set_eq_of_lt _ h2,
    List.getElem?_set_eq_of_lt _ h3, List.getElem?_set_eq_of_lt _ h4]

lemma meterFold_spec (dB sq : ℚ → ℚ) (n_midi : ℕ) (mf af : ℚ) :
    ∀ (m : ℕ) (s : PeakMeter), m ≤ s.peak_signal.length →
    s.visible_peak_power.length = s.peak_signal.length →
    s.max_peak_signal.length = s.peak_signal.length →
    s.max_peak_power.length = s.peak_signal.length →
    (((List.range m).foldl (meterChan dB sq n_midi mf af) s).peak_signal.length = s.peak_signal.length ∧
     ((List.range m).foldl (meterChan dB sq n_midi mf af) s).visible_peak_power.length = s.visible_peak_power.length ∧
     ((List.range m).foldl (meterChan dB sq n_midi mf af) s).max_peak_signal.length = s.max_peak_signal.length ∧
     ((List.range m).foldl (meterChan dB sq n_midi mf af) s).max_peak_power.length = s.max_peak_power.length) ∧
    (((List.range m).foldl (meterChan dB sq n_midi mf af) s).kmeter = s.kmeter ∧
     ((List.range m).foldl (meterChan dB sq n_midi mf af) s).iec1meter = s.iec1meter ∧
     ((List.range m).foldl (meterChan dB sq n_midi mf af) s).iec2meter = s.iec2meter ∧
     ((List.range m).foldl (meterChan dB sq n_midi mf af) s).vumeter = s.vumeter ∧
     ((List.range m).foldl (meterChan dB sq n_midi mf af) s).current_meters = s.current_meters ∧
     ((List.range m).foldl (meterChan dB sq n_midi mf af) s).meter_type = s.meter_type ∧
     ((List.range m).foldl (meterChan dB sq n_midi mf af) s).active = s.active ∧
     ((List.range m).foldl (meterChan dB sq n_midi mf af) s).pending_active = s.pending_active) ∧
    (∀ i,
      ((List.range m).foldl (meterChan dB sq n_midi mf af) s).peak_signal.getD i 0 =
        (if i < m then 0 else s.peak_signal.getD i 0) ∧
      ((List.range m).foldl (meterChan dB sq n_midi mf af) s).max_peak_signal.getD i 0 =
        (if i < m then
          (if i < n_midi then 0
           else max (s.peak_signal.getD i 0) (s.max_peak_signal.getD i 0))
         else s.max_peak_signal.getD i 0) ∧
      ((List.range m).foldl (meterChan dB sq n_midi mf af) s).max_peak_power.getD i ⊥ =
        (if i < m then
          (if i < n_midi then ⊥
           else max (audioLevel dB (s.peak_signal.getD i 0)) (s.max_peak_power.getD i ⊥))
         else s.max_peak_power.getD i ⊥) ∧
      ((List.range m).foldl (meterChan dB sq n_midi mf af) s).visible_peak_power.getD i ⊥ =
        (if i < m then
          (if i < n_midi then
            midiNewVis sq mf (s.peak_signal.getD i 0) (s.visible_peak_power.getD i ⊥)
           else audioNewVis af (audioLevel dB (s.peak_signal.getD i 0)) (s.visible_peak_power.getD i ⊥))
         else s.visible_peak_power.getD i ⊥)) := by
  intro m
  induction m with
  | zero =>
      intro s _ _ _ _
      simp
  | succ m ih =>
      intro s hm h1 h2 h3
      have hm' : m ≤ s.peak_signal.length := by omega
      obtain ⟨⟨L1, L2, L3, L4⟩, ⟨U1, U2, U3, U4, U5, U6, U7, U8⟩, HG⟩ := ih s hm' h1 h2 h3
      set F := (List.range m).foldl (meterChan dB sq n_midi mf af) s with hF
      have hstep : (List.range (m + 1)).foldl (meterChan dB sq n_midi mf af) s
          = meterChan dB sq n_midi mf af F m := by
        rw [List.range_succ, List.foldl_append, List.foldl_cons, List.foldl_nil]
      have hb1 : m < F.peak_signal.length := by rw [L1]; omega
      have hb2 : m < F.visible_peak_power.length := by rw [L2, h1]; omega
      have hb3 : m < F.max_peak_signal.length := by rw [L3, h2]; omega
      have hb4 : m < F.max_peak_power.length := by rw [L4, h3]; omega
      have hFm := HG m
      have hFps : F.peak_signal.getD m 0 = s.peak_signal.getD m 0 := by
        rw [hFm.1]; simp
      have hFms : F.max_peak_signal.getD m 0 = s.max_peak_signal.getD m 0 := by
        rw [hFm.2.1]; simp
      have hFmp : F.max_peak_power.getD m ⊥ = s.max_peak_power.getD m ⊥ := by
        rw [hFm.2.2.1]; simp
      have hFv : F.visible_peak_power.getD m ⊥ = s.visible_peak_power.getD m ⊥ := by
        rw [hFm.2.2.2]; simp
      rw [hstep]
      obtain ⟨SL1, SL2, SL3, SL4⟩ := meterChan_len dB sq n_midi mf af F m
      obtain ⟨SF1, SF2, SF3, SF4, SF5, SF6, SF7, SF8⟩ := meterChan_fixed dB sq n_midi mf af F m
      refine ⟨⟨by rw [SL1, L1], by rw [SL2, L2], by rw [SL3, L3], by rw [SL4, L4]⟩,
        ⟨by rw [SF1, U1], by rw [SF2, U2], by rw [SF3, U3], by rw [SF4, U4],
         by rw [SF5, U5], by rw [SF6, U6], by rw [SF7, U7], by rw [SF8, U8]⟩, ?_⟩
      intro i
      by_cases him : i < m
      · obtain ⟨N1, N2, N3, N4⟩ := meterChan_getD_ne dB sq n_midi mf af F m i (by omega)
        have hg := HG i
        have hs : i < m + 1 := by omega
        refine ⟨?_, ?_, ?_, ?_⟩
        · rw [N1, hg.1]; simp [him, hs]
        · rw [N3, hg.2.1]; simp [him, hs]
        · rw [N4, hg.2.2.1]; simp [him, hs]
        · rw [N2, hg.2.2.2]; simp [him, hs]
      · by_cases heq : i = m
        · subst heq
          by_cases hmid : i < n_midi
          · obtain ⟨E1, E2, E3, E4⟩ :=
              meterChan_getD_midi dB sq n_midi mf af F i hmid hb1 hb2 hb3 hb4
            refine ⟨?_, ?_, ?_, ?_⟩
            · rw [E1]; simp
            · rw [E2]; simp [hmid]
            · rw [E3]; simp [hmid]
            · rw [E4, hFps, hFv]; simp [hmid]
          · obtain ⟨E1, E2, E3, E4⟩ :=
              meterChan_getD_audio dB sq n_midi mf af F i hmid hb1 hb2 hb3 hb4
            refine ⟨?_, ?_, ?_, ?_⟩
            · rw [E1]; simp
            · rw [E2, hFps, hFms]; simp [hmid]
            · rw [E3, hFps, hFmp]; simp [hmid]
            · rw [E4, hFps, hFv]; simp [hmid]
        · have hgt : ¬ i < m + 1 := by omega
          obtain ⟨N1, N2, N3, N4⟩ := meterChan_getD_ne dB sq n_midi mf af F m i heq
          have hg := HG i
          refine ⟨?_, ?_, ?_, ?_⟩
          · rw [N1, hg.1]; simp [him, hgt]
          · rw [N3, hg.2.1]; simp [him, hgt]
          · rw [N4, hg.2.2.1]; simp [him, hgt]
          · rw [N2, hg.2.2.2]; simp [him, hgt]

lemma meter_of_inactive (dB sq : ℚ → ℚ) (cfg : ℚ) (s : PeakMeter)
    (h : s.active = false) : PeakMeter.meter dB sq cfg s = s := by
  unfold PeakMeter.meter
  rw [if_pos h]

lemma meter_of_misaligned (dB sq : ℚ → ℚ) (cfg : ℚ) (s : PeakMeter)
    (h : ¬ s.metricsAligned) : PeakMeter.meter dB sq cfg s = s := by
  unfold PeakMeter.meter
  by_cases hact : s.active = false
  · rw [if_pos hact]
  · rw [if_neg hact, if_pos]
    unfold PeakMeter.metricsAligned at h
    tauto

lemma meter_eq_fold (dB sq : ℚ → ℚ) (cfg : ℚ) (s : PeakMeter)
    (hact : s.active = true) (hal : s.metricsAligned) :
    PeakMeter.meter dB sq cfg s =
      (List.range (min s.peak_signal.length s.current_meters.n_total)).foldl
        (meterChan dB sq (min s.peak_signal.length s.current_meters.midi)
          (cfg * (1 / 100)) (meterAudioFalloff s.meter_type cfg)) s := by
  unfold PeakMeter.meter
  obtain ⟨h1, h2, h3⟩ := hal
  rw [if_neg (by simp [hact]), if_neg (by simp [h1, h2, h3])]

lemma meter_max_mono (dB sq : ℚ → ℚ) (cfg : ℚ) (s : PeakMeter)
    (hbase : s.midiMaxBase) (n : ℕ) :
    s.max_peak_signal.getD n 0 ≤ (PeakMeter.meter dB sq cfg s).max_peak_signal.getD n 0 ∧
    s.max_peak_power.getD n ⊥ ≤ (PeakMeter.meter dB sq cfg s).max_peak_power.getD n ⊥ ∧
    (PeakMeter.meter dB sq cfg s).midiMaxBase := by
  by_cases hact : s.active = false
  · rw [meter_of_inactive dB sq cfg s hact]
    exact ⟨le_refl _, le_refl _, hbase⟩
  by_cases hal : s.metricsAligned
  · rw [meter_eq_fold dB sq cfg s (by revert hact; cases s.active <;> simp) hal]
    obtain ⟨h1, h2, h3⟩ := hal
    have hmle : min s.peak_signal.length s.current_meters.n_total ≤ s.peak_signal.length :=
      Nat.min_le_left _ _
    obtain ⟨⟨L1, L2, L3, L4⟩, ⟨U1, U2, U3, U4, U5, U6, U7, U8⟩, HG⟩ :=
      meterFold_spec dB sq (min s.peak_signal.length s.current_meters.midi)
        (cfg * (1 / 100)) (meterAudioFalloff s.meter_type cfg)
        (min s.peak_signal.length s.current_meters.n_total) s hmle h1 h2 h3
    refine ⟨?_, ?_, ?_⟩
    · rw [(HG n).2.1]
      by_cases hin : n < min s.peak_signal.length s.current_meters.n_total
      · by_cases hmid : n < min s.peak_signal.length s.current_meters.midi
        · have hb : n < s.current_meters.midi := lt_of_lt_of_le hmid (Nat.min_le_right _ _)
          rw [(hbase n hb).2]
          simp [hin, hmid]
        · simp [hin, hmid, le_max_right]
      · simp [hin]
    · rw [(HG n).2.2.1]
      by_cases hin : n < min s.peak_signal.length s.current_meters.n_total
      · by_cases hmid : n < min s.peak_signal.length s.current_meters.midi
        · have hb : n < s.current_meters.midi := lt_of_lt_of_le hmid (Nat.min_le_right _ _)
          rw [(hbase n hb).1]
          simp [hin, hmid]
        · simp [hin, hmid, le_max_right]
      · simp [hin]
    · intro i hi
      rw [U5] at hi
      constructor
      · rw [(HG i).2.2.1]
        by_cases hin : i < min s.peak_signal.length s.current_meters.n_total
        · have hmid : i < min s.peak_signal.length s.current_meters.midi := by
            have := Nat.min_le_left s.peak_signal.length s.current_meters.n_total
            omega
          simp [hin, hmid]
        · rw [if_neg hin]
          exact (hbase i hi).1
      · rw [(HG i).2.1]
        by_cases hin : i < min s.peak_signal.length s.current_meters.n_total
        · have hmid : i < min s.peak_signal.length s.current_meters.midi := by
            have := Nat.min_le_left s.peak_signal.length s.current_meters.n_total
            omega
          simp [hin, hmid]
        · rw [if_neg hin]
          exact (hbase i hi).2
  · rw [meter_of_misaligned dB sq cfg s hal]
    exact ⟨le_refl _, le_refl _, hbase⟩

lemma reset_max_spec (s : PeakMeter) :
    (PeakMeter.reset_max s).max_peak_power.length = s.max_peak_power.length ∧
    (PeakMeter.reset_max s).max_peak_signal.length = s.max_peak_signal.length ∧
    (PeakMeter.reset_max s).visible_peak_power.length = s.visible_peak_power.length ∧
    (PeakMeter.reset_max s).peak_signal = s.peak_signal ∧
    (PeakMeter.reset_max s).kmeter = s.kmeter ∧
    (PeakMeter.reset_max s).iec1meter = s.iec1meter ∧
    (PeakMeter.reset_max s).iec2meter = s.iec2meter ∧
    (PeakMeter.reset_max s).vumeter = s.vumeter ∧
    (PeakMeter.reset_max s).current_meters = s.current_meters ∧
    (PeakMeter.reset_max s).meter_type = s.meter_type ∧
    (PeakMeter.reset_max s).active = s.active ∧
    (PeakMeter.reset_max s).pending_active = s.pending_active ∧
    (∀ i, (PeakMeter.reset_max s).max_peak_power.getD i ⊥ =
      if i < s.max_peak_power.length then ⊥ else s.max_peak_power.getD i ⊥) ∧
    (∀ i, (PeakMeter.reset_max s).max_peak_signal.getD i 0 =
      if i < s.max_peak_power.length ∧ i < s.max_peak_signal.length then 0
      else s.max_peak_signal.getD i 0) ∧
    (∀ i, (PeakMeter.reset_max s).visible_peak_power.getD i ⊥ =
      if i < s.peak_signal.length ∧ i < s.visible_peak_power.length then
        (if i < min s.peak_signal.length s.current_meters.midi then ((0 : ℚ) : MFloat) else ⊥)
      else s.visible_peak_power.getD i ⊥) := by
  unfold PeakMeter.reset_max
  refine ⟨?_, ?_, ?_, rfl, rfl, rfl, rfl, rfl, rfl, rfl, rfl, rfl, ?_, ?_, ?_⟩
  · exact setFold_length _ (fun _ _ => (⊥ : MFloat)) ⊥ (fun _ _ => rfl) _ _
  · exact setFold_length _ (fun _ _ => (0 : ℚ)) 0 (fun _ _ => rfl) _ _
  · exact setFold_length _
      (fun n _ => if n < min s.peak_signal.length s.current_meters.midi then ((0 : ℚ) : MFloat) else ⊥)
      ⊥ (fun _ _ => rfl) _ _
  · intro i
    rw [setFold_range_getD _ (fun _ _ => (⊥ : MFloat)) ⊥ (fun _ _ => rfl)]
    by_cases h : i < s.max_peak_power.length <;> simp [h]
  · intro i
    rw [setFold_range_getD _ (fun _ _ => (0 : ℚ)) 0 (fun _ _ => rfl)]
  · intro i
    rw [setFold_range_getD _
      (fun n _ => if n < min s.peak_signal.length s.current_meters.midi then ((0 : ℚ) : MFloat) else ⊥)
      ⊥ (fun _ _ => rfl)]

/-! Claim theorems. -/

lemma mfloat_cases (v : MFloat) : v = ⊥ ∨ ∃ q : ℚ, v = (q : MFloat) := by
  induction v using WithBot.recBotCoe with
  | bot => exact Or.inl rfl
  | coe q => exact Or.inr ⟨q, rfl⟩

lemma meterAudioFalloff_nonneg (mt : ℕ) (cfg : ℚ) (h : 0 ≤ cfg) :
    0 ≤ meterAudioFalloff mt cfg := by
  unfold meterAudioFalloff
  split_ifs
  · norm_num
  · exact mul_nonneg h (by norm_num)

lemma meterSeq_max_mono (dB sq : ℚ → ℚ) :
    ∀ (cfgs : List ℚ) (s : PeakMeter), s.midiMaxBase → ∀ n,
      s.max_peak_signal.getD n 0 ≤
        (cfgs.foldl (fun t c => PeakMeter.meter dB sq c t) s).max_peak_signal.getD n 0 ∧
      s.max_peak_power.getD n ⊥ ≤
        (cfgs.foldl (fun t c => PeakMeter.meter dB sq c t) s).max_peak_power.getD n ⊥ ∧
      (cfgs.foldl (fun t c => PeakMeter.meter dB sq c t) s).midiMaxBase := by
  intro cfgs
  induction cfgs with
  | nil => exact fun s hbase n => ⟨le_refl _, le_refl _, hbase⟩
  | cons c cfgs ih =>
      intro s hbase n
      obtain ⟨m1, m2, mb⟩ := meter_max_mono dB sq c s hbase n
      obtain ⟨k1, k2, kb⟩ := ih (PeakMeter.meter dB sq c s) mb n
      exact ⟨le_trans m1 k1, le_trans m2 k2, kb⟩

/-- C2: for every channel `n`, `max_signal` and `max_power` are monotonically
non-decreasing across any sequence of Reduction (`meter`) calls (given the
invariant that MIDI channels sit at their max baselines, which every
Reduction call re-establishes), and an explicit `reset_max` returns every
maximum to its `0` / `-infinity` baseline. -/
theorem C2_max_monotone (dB sq : ℚ → ℚ) (cfgs : List ℚ) (s : PeakMeter) (n : ℕ)
    (hbase : s.midiMaxBase)
    (hlen : s.max_peak_signal.length = s.max_peak_power.length) :
    s.max_peak_signal.getD n 0 ≤
      (cfgs.foldl (fun t c => PeakMeter.meter dB sq c t) s).max_peak_signal.getD n 0 ∧
    s.max_peak_power.getD n ⊥ ≤
      (cfgs.foldl (fun t c => PeakMeter.meter dB sq c t) s).max_peak_power.getD n ⊥ ∧
    (∀ i < s.max_peak_power.length,
      (PeakMeter.reset_max s).max_peak_power.getD i ⊥ = ⊥ ∧
      (PeakMeter.reset_max s).max_peak_signal.getD i 0 = 0) := by
  obtain ⟨m1, m2, _⟩ := meterSeq_max_mono dB sq cfgs s hbase n
  refine ⟨m1, m2, ?_⟩
  intro i hi
  obtain ⟨-, -, -, -, -, -, -, -, -, -, -, -, hp, hs, -⟩ := reset_max_spec s
  constructor
  · rw [hp i, if_pos hi]
  · rw [hs i, if_pos ⟨hi, by omega⟩]

/-- C2 witness: a concrete two-audio-channel state with a pending raw peak
satisfies the hypotheses, so one tick leaves the maxima no smaller and
`reset_max` zeroes them. -/
theorem C2_witness :
    exC2.midiMaxBase ∧ exC2.max_peak_signal.length = exC2.max_peak_power.length ∧
    (exC2.max_peak_signal.getD 1 0 ≤
      ([(0 : ℚ)].foldl (fun t c => PeakMeter.meter (fun q => q) (fun q => q) c t) exC2).max_peak_signal.getD 1 0 ∧
    exC2.max_peak_power.getD 1 ⊥ ≤
      ([(0 : ℚ)].foldl (fun t c => PeakMeter.meter (fun q => q) (fun q => q) c t) exC2).max_peak_power.getD 1 ⊥ ∧
    (∀ i < exC2.max_peak_power.length,
      (PeakMeter.reset_max exC2).max_peak_power.getD i ⊥ = ⊥ ∧
      (PeakMeter.reset_max exC2).max_peak_signal.getD i 0 = 0)) :=
  ⟨by decide, by decide,
    C2_max_monotone (fun q => q) (fun q => q) [0] exC2 1 (by decide) (by decide)⟩

/-- C3: a Reduction tick on audio channel `n` whose grabbed raw peak is
`x > 0` sets the visible level to exactly `dB(x)` when the effective audio
falloff rate is zero or `dB(x)` exceeds the previous visible level, and
otherwise to a value no greater than the previous visible level, for every
configured falloff rate `≥ 0`. -/
theorem C3_audio_visible_falloff (dB sq : ℚ → ℚ) (cfg : ℚ) (s : PeakMeter) (n : ℕ)
    (hcfg : 0 ≤ cfg) (hact : s.active = true) (hal : s.metricsAligned)
    (hmid : s.current_meters.midi ≤ n)
    (hn : n < s.peak_signal.length)
    (htot : n < s.current_meters.n_total)
    (hx : 0 < s.peak_signal.getD n 0) :
    ((meterAudioFalloff s.meter_type cfg = 0 ∨
        s.visible_peak_power.getD n ⊥ < ((dB (s.peak_signal.getD n 0) : ℚ) : MFloat)) →
      (PeakMeter.meter dB sq cfg s).visible_peak_power.getD n ⊥ =
        ((dB (s.peak_signal.getD n 0) : ℚ) : MFloat)) ∧
    (¬ (meterAudioFalloff s.meter_type cfg = 0 ∨
        s.visible_peak_power.getD n ⊥ < ((dB (s.peak_signal.getD n 0) : ℚ) : MFloat)) →
      (PeakMeter.meter dB sq cfg s).visible_peak_power.getD n ⊥ ≤
        s.visible_peak_power.getD n ⊥) := by
  rw [meter_eq_fold dB sq cfg s hact hal]
  obtain ⟨h1, h2, h3⟩ := hal
  obtain ⟨-, -, HG⟩ :=
    meterFold_spec dB sq (min s.peak_signal.length s.current_meters.midi)
      (cfg * (1 / 100)) (meterAudioFalloff s.meter_type cfg)
      (min s.peak_signal.length s.current_meters.n_total) s
      (Nat.min_le_left _ _) h1 h2 h3
  have hvis := (HG n).2.2.2
  have hin : n < min s.peak_signal.length s.current_meters.n_total := by omega
  have hnm : ¬ n < min s.peak_signal.length s.current_meters.midi := by
    have := Nat.min_le_right s.peak_signal.length s.current_meters.midi
    omega
  rw [hvis, if_pos hin, if_neg hnm]
  have hlevel : audioLevel dB (s.peak_signal.getD n 0) =
      ((dB (s.peak_signal.getD n 0) : ℚ) : MFloat) := by
    unfold audioLevel
    rw [if_pos hx]
  constructor
  · intro hcond
    unfold audioNewVis
    rw [hlevel, if_pos]
    rcases hcond with h | h
    · exact Or.inl h
    · exact Or.inr h
  · intro hcond
    push_neg at hcond
    obtain ⟨hrate, hle⟩ := hcond
    unfold audioNewVis
    rw [hlevel, if_neg (by rw [not_or]; exact ⟨hrate, by simpa using hle⟩)]
    have haf : 0 ≤ meterAudioFalloff s.meter_type cfg :=
      meterAudioFalloff_nonneg _ _ hcfg
    rcases mfloat_cases (s.visible_peak_power.getD n ⊥) with hv | ⟨q, hv⟩
    · rw [hv]
      simp
    · rw [hv]
      have : ((q : MFloat)).map (fun r => r - meterAudioFalloff s.meter_type cfg)
          = ((q - meterAudioFalloff s.meter_type cfg : ℚ) : MFloat) := rfl
      rw [this]
      have hle2 : ((q - meterAudioFalloff s.meter_type cfg : ℚ) : MFloat) ≤ (q : MFloat) := by
        rw [WithBot.coe_le_coe]
        linarith
      calc max ((q - meterAudioFalloff s.meter_type cfg : ℚ) : MFloat) ⊥
          = ((q - meterAudioFalloff s.meter_type cfg : ℚ) : MFloat) := max_eq_left bot_le
        _ ≤ (q : MFloat) := hle2

/-- C3 witness: a concrete one-audio-channel state with raw peak `1`, prior
visible level `0` and the identity as dB map satisfies the hypotheses; with
falloff `1` the adoption branch applies since `dB(1) = 1 > 0`. -/
theorem C3_witness :
    (0 : ℚ) ≤ 1 ∧ exC3.active = true ∧ exC3.metricsAligned ∧
    0 < exC3.peak_signal.getD 0 0 ∧
    (((meterAudioFalloff exC3.meter_type 1 = 0 ∨
        exC3.visible_peak_power.getD 0 ⊥ <
          (((fun q : ℚ => q) (exC3.peak_signal.getD 0 0) : ℚ) : MFloat)) →
      (PeakMeter.meter (fun q : ℚ => q) (fun q : ℚ => q) 1 exC3).visible_peak_power.getD 0 ⊥ =
        (((fun q : ℚ => q) (exC3.peak_signal.getD 0 0) : ℚ) : MFloat)) ∧
    (¬ (meterAudioFalloff exC3.meter_type 1 = 0 ∨
        exC3.visible_peak_power.getD 0 ⊥ <
          (((fun q : ℚ => q) (exC3.peak_signal.getD 0 0) : ℚ) : MFloat)) →
      (PeakMeter.meter (fun q : ℚ => q) (fun q : ℚ => q) 1 exC3).visible_peak_power.getD 0 ⊥ ≤
        exC3.visible_peak_power.getD 0 ⊥)) :=
  ⟨by norm_num, rfl, by decide, by decide,
    C3_audio_visible_falloff (fun q : ℚ => q) (fun q : ℚ => q) 1 exC3 0
      (by norm_num) rfl (by decide) (by decide) (by decide) (by decide) (by decide)⟩

/-- C4 counterexample: with the four metric arrays of equal length 1 but a
configured layout totalling 2 channels — lengths equal among themselves yet
not layout-consistent — the Reduction call is NOT a no-op: it consumes the
raw peak and updates the maxima, so the claim as stated fails. -/
theorem C4_counterexample :
    cexC4.peak_signal.length ≠ cexC4.current_meters.n_total ∧
    cexC4.metricsAligned ∧ cexC4.active = true ∧
    PeakMeter.meter (fun q => q) (fun q => q) 0 cexC4 ≠ cexC4 := by
  refine ⟨by decide, by decide, rfl, by decide⟩

/-- C4 (amended): the Reduction call is a silent no-op exactly under the
guard the code tests — the four metric arrays disagreeing in length among
themselves (layout consistency is not part of the guard); with any such
misalignment the state is returned unmodified. -/
theorem C4_amended_skip (dB sq : ℚ → ℚ) (cfg : ℚ) (s : PeakMeter)
    (h : ¬ s.metricsAligned) : PeakMeter.meter dB sq cfg s = s :=
  meter_of_misaligned dB sq cfg s h

/-- C4 witness: a concrete state whose visible array is shorter than its raw
array is skipped unmodified by Reduction. -/
theorem C4_witness :
    ¬ exC4mis.metricsAligned ∧
    PeakMeter.meter (fun q => q) (fun q => q) 0 exC4mis = exC4mis :=
  ⟨by decide, C4_amended_skip (fun q => q) (fun q => q) 0 exC4mis (by decide)⟩

lemma resetFold_getD (m : ℕ) (xs : List ℚ) (i : ℕ) :
    ((List.range m).foldl (fun l n => l.set n (Ballistics.reset (l.getD n 0))) xs).getD i 0 =
      if i < m ∧ i < xs.length then 0 else xs.getD i 0 := by
  rw [setFold_range_getD _ (fun _ v => Ballistics.reset v) 0 (fun _ _ => rfl)]
  simp [Ballistics.reset]

lemma resetFold_length (m : ℕ) (xs : List ℚ) :
    ((List.range m).foldl (fun l n => l.set n (Ballistics.reset (l.getD n 0))) xs).length = xs.length :=
  setFold_length _ (fun _ v => Ballistics.reset v) 0 (fun _ _ => rfl) _ _

lemma resetFoldN_length (m : ℕ) (xs : List ℚ) :
    ((List.range m).foldl (fun l n => l.set n (Ballistics.reset (l[n]?.getD 0))) xs).length = xs.length :=
  setFold_length _ (fun _ v => Ballistics.reset v) 0 (fun _ _ => rfl) _ _

lemma resetFoldN_getD (m : ℕ) (xs : List ℚ) (i : ℕ) :
    ((List.range m).foldl (fun l n => l.set n (Ballistics.reset (l[n]?.getD 0))) xs)[i]?.getD 0 =
      if i < m ∧ i < xs.length then 0 else xs[i]?.getD 0 := by
  have h := setFold_range_getD (fun l n => l.set n (Ballistics.reset (l[n]?.getD 0)))
    (fun _ v => Ballistics.reset v) 0 (fun _ _ => rfl) m xs i
  simpa [List.getD, Ballistics.reset] using h

/-- C1 counterexample: with old mask `Krms|VU` and new mask `Krms` (only the
VU bit toggled off), the K family's selection did not change, yet
`set_type` resets the K units — their accumulated state `[5]` becomes `[0]`
— so the claim that units of unchanged families are left untouched fails. -/
theorem C1_counterexample :
    MeterKrms ≠ exC1.meter_type ∧
    exC1.meter_type &&& kFamilyMask ≠ 0 ∧
    MeterKrms &&& kFamilyMask ≠ 0 ∧
    (PeakMeter.set_type exC1 MeterKrms).kmeter ≠ exC1.kmeter := by
  decide

/-- C1 (amended): `set_type` is a no-op when the mask is unchanged;
otherwise it stores the new mask and resets the first
`current_meters.n_audio()` units of exactly the families that are selected
in the NEW mask (whether or not they were selected before), while the unit
arrays of families not selected in the new mask, and all metric state, are
left untouched. -/
theorem C1_amended_set_type (s : PeakMeter) (t : ℕ) :
    (t = s.meter_type → PeakMeter.set_type s t = s) ∧
    (t ≠ s.meter_type →
      (PeakMeter.set_type s t).meter_type = t ∧
      (PeakMeter.set_type s t).peak_signal = s.peak_signal ∧
      (PeakMeter.set_type s t).visible_peak_power = s.visible_peak_power ∧
      (PeakMeter.set_type s t).max_peak_signal = s.max_peak_signal ∧
      (PeakMeter.set_type s t).max_peak_power = s.max_peak_power ∧
      (PeakMeter.set_type s t).current_meters = s.current_meters ∧
      (t &&& kFamilyMask = 0 → (PeakMeter.set_type s t).kmeter = s.kmeter) ∧
      (t &&& kFamilyMask ≠ 0 →
        (PeakMeter.set_type s t).kmeter.length = s.kmeter.length ∧
        ∀ i, (PeakMeter.set_type s t).kmeter.getD i 0 =
          if i < s.current_meters.audio ∧ i < s.kmeter.length then 0
          else s.kmeter.getD i 0) ∧
      (t &&& iec1FamilyMask = 0 → (PeakMeter.set_type s t).iec1meter = s.iec1meter) ∧
      (t &&& iec1FamilyMask ≠ 0 →
        (PeakMeter.set_type s t).iec1meter.length = s.iec1meter.length ∧
        ∀ i, (PeakMeter.set_type s t).iec1meter.getD i 0 =
          if i < s.current_meters.audio ∧ i < s.iec1meter.length then 0
          else s.iec1meter.getD i 0) ∧
      (t &&& iec2FamilyMask = 0 → (PeakMeter.set_type s t).iec2meter = s.iec2meter) ∧
      (t &&& iec2FamilyMask ≠ 0 →
        (PeakMeter.set_type s t).iec2meter.length = s.iec2meter.length ∧
        ∀ i, (PeakMeter.set_type s t).iec2meter.getD i 0 =
          if i < s.current_meters.audio ∧ i < s.iec2meter.length then 0
          else s.iec2meter.getD i 0) ∧
      (t &&& MeterVU = 0 → (PeakMeter.set_type s t).vumeter = s.vumeter) ∧
      (t &&& MeterVU ≠ 0 →
        (PeakMeter.set_type s t).vumeter.length = s.vumeter.length ∧
        ∀ i, (PeakMeter.set_type s t).vumeter.getD i 0 =
          if i < s.current_meters.audio ∧ i < s.vumeter.length then 0
          else s.vumeter.getD i 0)) := by
  constructor
  · intro h
    unfold PeakMeter.set_type
    rw [if_pos h]
  · intro hne
    unfold PeakMeter.set_type
    rw [if_neg hne]
    by_cases hK : t &&& kFamilyMask = 0 <;>
    by_cases h1 : t &&& iec1FamilyMask = 0 <;>
    by_cases h2 : t &&& iec2FamilyMask = 0 <;>
    by_cases hV : t &&& MeterVU = 0 <;>
      simp [hK, h1, h2, hV, resetFoldN_length, resetFoldN_getD]

/-- C1 witness: toggling VU off from `Krms|VU` leaves the (unselected) VU
units untouched while the K units — selected in the new mask — are reset
over the audio range. -/
theorem C1_witness :
    MeterKrms ≠ exC1.meter_type ∧
    (PeakMeter.set_type exC1 MeterKrms).vumeter = exC1.vumeter ∧
    (∀ i, (PeakMeter.set_type exC1 MeterKrms).kmeter.getD i 0 =
      if i < exC1.current_meters.audio ∧ i < exC1.kmeter.length then 0
      else exC1.kmeter.getD i 0) := by
  have H := (C1_amended_set_type exC1 MeterKrms).2 (by decide)
  exact ⟨by decide, H.2.2.2.2.2.2.2.2.2.2.2.2.1 (by decide),
    (H.2.2.2.2.2.2.2.1 (by decide)).2⟩

/-- C6: `configure_io` rejects, with the state untouched, exactly the
layouts whose output differs from the input; a 1:1 layout is accepted
(the base class applies it), the layout is stored and the channels are
reconfigured. -/
theorem C6_configure_one_to_one (s : PeakMeter) (inc outc : ChanCount) :
    (outc ≠ inc → PeakMeter.configure_io_impl s inc outc = (false, s)) ∧
    (outc = inc →
      (PeakMeter.configure_io_impl s inc outc).1 = true ∧
      (PeakMeter.configure_io_impl s inc outc).2 =
        PeakMeter.reset_max_channels { s with current_meters := inc } inc) := by
  constructor
  · intro h
    unfold PeakMeter.configure_io_impl
    rw [if_pos h]
  · intro h
    unfold PeakMeter.configure_io_impl
    rw [if_neg (by simp [h])]
    exact ⟨rfl, rfl⟩

/-- C6 witness: a 2-to-1 request is rejected with the state unchanged, and a
1:1 request on the same state is accepted. -/
theorem C6_witness :
    (⟨0, 2⟩ : ChanCount) ≠ (⟨0, 1⟩ : ChanCount) ∧
    PeakMeter.configure_io_impl PeakMeter.initial ⟨0, 1⟩ ⟨0, 2⟩ = (false, PeakMeter.initial) ∧
    (PeakMeter.configure_io_impl PeakMeter.initial ⟨0, 1⟩ ⟨0, 1⟩).1 = true :=
  ⟨by decide,
   (C6_configure_one_to_one PeakMeter.initial ⟨0, 1⟩ ⟨0, 2⟩).1 (by decide),
   ((C6_configure_one_to_one PeakMeter.initial ⟨0, 1⟩ ⟨0, 1⟩).2 rfl).1⟩

lemma dropFoldMetrics (k : ℕ) (s : PeakMeter) :
    (((List.range k).foldl (fun t _ =>
      { t with peak_signal := t.peak_signal.dropLast,
               visible_peak_power := t.visible_peak_power.dropLast,
               max_peak_signal := t.max_peak_signal.dropLast,
               max_peak_power := t.max_peak_power.dropLast }) s).peak_signal.length
        = s.peak_signal.length - k) ∧
    (((List.range k).foldl (fun t _ =>
      { t with peak_signal := t.peak_signal.dropLast,
               visible_peak_power := t.visible_peak_power.dropLast,
               max_peak_signal := t.max_peak_signal.dropLast,
               max_peak_power := t.max_peak_power.dropLast }) s).visible_peak_power.length
        = s.visible_peak_power.length - k) ∧
    (((List.range k).foldl (fun t _ =>
      { t with peak_signal := t.peak_signal.dropLast,
               visible_peak_power := t.visible_peak_power.dropLast,
               max_peak_signal := t.max_peak_signal.dropLast,
               max_peak_power := t.max_peak_power.dropLast }) s).max_peak_signal.length
        = s.max_peak_signal.length - k) ∧
    (((List.range k).foldl (fun t _ =>
      { t with peak_signal := t.peak_signal.dropLast,
               visible_peak_power := t.visible_peak_power.dropLast,
               max_peak_signal := t.max_peak_signal.dropLast,
               max_peak_power := t.max_peak_power.dropLast }) s).max_peak_power.length
        = s.max_peak_power.length - k) ∧
    (((List.range k).foldl (fun t _ =>
      { t with peak_signal := t.peak_signal.dropLast,
               visible_peak_power := t.visible_peak_power.dropLast,
               max_peak_signal := t.max_peak_signal.dropLast,
               max_peak_power := t.max_peak_power.dropLast }) s).kmeter = s.kmeter) ∧
    (((List.range k).foldl (fun t _ =>
      { t with peak_signal := t.peak_signal.dropLast,
               visible_peak_power := t.visible_peak_power.dropLast,
               max_peak_signal := t.max_peak_signal.dropLast,
               max_peak_power := t.max_peak_power.dropLast }) s).iec1meter = s.iec1meter) ∧
    (((List.range k).foldl (fun t _ =>
      { t with peak_signal := t.peak_signal.dropLast,
               visible_peak_power := t.visible_peak_power.dropLast,
               max_peak_signal := t.max_peak_signal.dropLast,
               max_peak_power := t.max_peak_power.dropLast }) s).iec2meter = s.iec2meter) ∧
    (((List.range k).foldl (fun t _ =>
      { t with peak_signal := t.peak_signal.dropLast,
               visible_peak_power := t.visible_peak_power.dropLast,
               max_peak_signal := t.max_peak_signal.dropLast,
               max_peak_power := t.max_peak_power.dropLast }) s).vumeter = s.vumeter) ∧
    (((List.range k).foldl (fun t _ =>
      { t with peak_signal := t.peak_signal.dropLast,
               visible_peak_power := t.visible_peak_power.dropLast,
               max_peak_signal := t.max_peak_signal.dropLast,
               max_peak_power := t.max_peak_power.dropLast }) s).current_meters = s.current_meters) ∧
    (((List.range k).foldl (fun t _ =>
      { t with peak_signal := t.peak_signal.dropLast,
               visible_peak_power := t.visible_peak_power.dropLast,
               max_peak_signal := t.max_peak_signal.dropLast,
               max_peak_power := t.max_peak_power.dropLast }) s).meter_type = s.meter_type) ∧
    (((List.range k).foldl (fun t _ =>
      { t with peak_signal := t.peak_signal.dropLast,
               visible_peak_power := t.visible_peak_power.dropLast,
               max_peak_signal := t.max_peak_signal.dropLast,
               max_peak_power := t.max_peak_power.dropLast }) s).active = s.active) ∧
    (((List.range k).foldl (fun t _ =>
      { t with peak_signal := t.peak_signal.dropLast,
               visible_peak_power := t.visible_peak_power.dropLast,
               max_peak_signal := t.max_peak_signal.dropLast,
               max_peak_power := t.max_peak_power.dropLast }) s).pending_active = s.pending_active) := by
  induction k with
  | zero => simp
  | succ k ih =>
      obtain ⟨i1, i2, i3, i4, i5, i6, i7, i8, i9, i10, i11, i12⟩ := ih
      rw [List.range_succ, List.foldl_append, List.foldl_cons, List.foldl_nil]
      refine ⟨?_, ?_, ?_, ?_, ?_, ?_, ?_, ?_, ?_, ?_, ?_, ?_⟩ <;>
        simp [i1, i2, i3, i4, i5, i6, i7, i8, i9, i10, i11, i12] <;> omega

lemma growFoldMetrics (k : ℕ) (s : PeakMeter) :
    (((List.range k).foldl (fun t _ =>
      { t with peak_signal := t.peak_signal ++ [0],
               visible_peak_power := t.visible_peak_power ++ [⊥],
               max_peak_signal := t.max_peak_signal ++ [0],
               max_peak_power := t.max_peak_power ++ [⊥] }) s).peak_signal.length
        = s.peak_signal.length + k) ∧
    (((List.range k).foldl (fun t _ =>
      { t with peak_signal := t.peak_signal ++ [0],
               visible_peak_power := t.visible_peak_power ++ [⊥],
               max_peak_signal := t.max_peak_signal ++ [0],
               max_peak_power := t.max_peak_power ++ [⊥] }) s).visible_peak_power.length
        = s.visible_peak_power.length + k) ∧
    (((List.range k).foldl (fun t _ =>
      { t with peak_signal := t.peak_signal ++ [0],
               visible_peak_power := t.visible_peak_power ++ [⊥],
               max_peak_signal := t.max_peak_signal ++ [0],
               max_peak_power := t.max_peak_power ++ [⊥] }) s).max_peak_signal.length
        = s.max_peak_signal.length + k) ∧
    (((List.range k).foldl (fun t _ =>
      { t with peak_signal := t.peak_signal ++ [0],
               visible_peak_power := t.visible_peak_power ++ [⊥],
               max_peak_signal := t.max_peak_signal ++ [0],
               max_peak_power := t.max_peak_power ++ [⊥] }) s).max_peak_power.length
        = s.max_peak_power.length + k) ∧
    (((List.range k).foldl (fun t _ =>
      { t with peak_signal := t.peak_signal ++ [0],
               visible_peak_power := t.visible_peak_power ++ [⊥],
               max_peak_signal := t.max_peak_signal ++ [0],
               max_peak_power := t.max_peak_power ++ [⊥] }) s).kmeter = s.kmeter) ∧
    (((List.range k).foldl (fun t _ =>
      { t with peak_signal := t.peak_signal ++ [0],
               visible_peak_power := t.visible_peak_power ++ [⊥],
               max_peak_signal := t.max_peak_signal ++ [0],
               max_peak_power := t.max_peak_power ++ [⊥] }) s).iec1meter = s.iec1meter) ∧
    (((List.range k).foldl (fun t _ =>
      { t with peak_signal := t.peak_signal ++ [0],
               visible_peak_power := t.visible_peak_power ++ [⊥],
               max_peak_signal := t.max_peak_signal ++ [0],
               max_peak_power := t.max_peak_power ++ [⊥] }) s).iec2meter = s.iec2meter) ∧
    (((List.range k).foldl (fun t _ =>
      { t with peak_signal := t.peak_signal ++ [0],
               visible_peak_power := t.visible_peak_power ++ [⊥],
               max_peak_signal := t.max_peak_signal ++ [0],
               max_peak_power := t.max_peak_power ++ [⊥] }) s).vumeter = s.vumeter) ∧
    (((List.range k).foldl (fun t _ =>
      { t with peak_signal := t.peak_signal ++ [0],
               visible_peak_power := t.visible_peak_power ++ [⊥],
               max_peak_signal := t.max_peak_signal ++ [0],
               max_peak_power := t.max_peak_power ++ [⊥] }) s).current_meters = s.current_meters) ∧
    (((List.range k).foldl (fun t _ =>
      { t with peak_signal := t.peak_signal ++ [0],
               visible_peak_power := t.visible_peak_power ++ [⊥],
               max_peak_signal := t.max_peak_signal ++ [0],
               max_peak_power := t.max_peak_power ++ [⊥] }) s).meter_type = s.meter_type) ∧
    (((List.range k).foldl (fun t _ =>
      { t with peak_signal := t.peak_signal ++ [0],
               visible_peak_power := t.visible_peak_power ++ [⊥],
               max_peak_signal := t.max_peak_signal ++ [0],
               max_peak_power := t.max_peak_power ++ [⊥] }) s).active = s.active) ∧
    (((List.range k).foldl (fun t _ =>
      { t with peak_signal := t.peak_signal ++ [0],
               visible_peak_power := t.visible_peak_power ++ [⊥],
               max_peak_signal := t.max_peak_signal ++ [0],
               max_peak_power := t.max_peak_power ++ [⊥] }) s).pending_active = s.pending_active) := by
  induction k with
  | zero => simp
  | succ k ih =>
      obtain ⟨i1, i2, i3, i4, i5, i6, i7, i8, i9, i10, i11, i12⟩ := ih
      rw [List.range_succ, List.foldl_append, List.foldl_cons, List.foldl_nil]
      refine ⟨?_, ?_, ?_, ?_, ?_, ?_, ?_, ?_, ?_, ?_, ?_, ?_⟩ <;>
        simp [i1, i2, i3, i4, i5, i6, i7, i8, i9, i10, i11, i12] <;> omega

lemma dropFoldUnits (k : ℕ) (s : PeakMeter) :
    (((List.range k).foldl (fun t _ =>
      { t with kmeter := t.kmeter.dropLast,
               iec1meter := t.iec1meter.dropLast,
               iec2meter := t.iec2meter.dropLast,
               vumeter := t.vumeter.dropLast }) s).kmeter.length = s.kmeter.length - k) ∧
    (((List.range k).foldl (fun t _ =>
      { t with kmeter := t.kmeter.dropLast,
               iec1meter := t.iec1meter.dropLast,
               iec2meter := t.iec2meter.dropLast,
               vumeter := t.vumeter.dropLast }) s).iec1meter.length = s.iec1meter.length - k) ∧
    (((List.range k).foldl (fun t _ =>
      { t with kmeter := t.kmeter.dropLast,
               iec1meter := t.iec1meter.dropLast,
               iec2meter := t.iec2meter.dropLast,
               vumeter := t.vumeter.dropLast }) s).iec2meter.length = s.iec2meter.length - k) ∧
    (((List.range k).foldl (fun t _ =>
      { t with kmeter := t.kmeter.dropLast,
               iec1meter := t.iec1meter.dropLast,
               iec2meter := t.iec2meter.dropLast,
               vumeter := t.vumeter.dropLast }) s).vumeter.length = s.vumeter.length - k) ∧
    (((List.range k).foldl (fun t _ =>
      { t with kmeter := t.kmeter.dropLast,
               iec1meter := t.iec1meter.dropLast,
               iec2meter := t.iec2meter.dropLast,
               vumeter := t.vumeter.dropLast }) s).peak_signal = s.peak_signal) ∧
    (((List.range k).foldl (fun t _ =>
      { t with kmeter := t.kmeter.dropLast,
               iec1meter := t.iec1meter.dropLast,
               iec2meter := t.iec2meter.dropLast,
               vumeter := t.vumeter.dropLast }) s).visible_peak_power = s.visible_peak_power) ∧
    (((List.range k).foldl (fun t _ =>
      { t with kmeter := t.kmeter.dropLast,
               iec1meter := t.iec1meter.dropLast,
               iec2meter := t.iec2meter.dropLast,
               vumeter := t.vumeter.dropLast }) s).max_peak_signal = s.max_peak_signal) ∧
    (((List.range k).foldl (fun t _ =>
      { t with kmeter := t.kmeter.dropLast,
               iec1meter := t.iec1meter.dropLast,
               iec2meter := t.iec2meter.dropLast,
               vumeter := t.vumeter.dropLast }) s).max_peak_power = s.max_peak_power) ∧
    (((List.range k).foldl (fun t _ =>
      { t with kmeter := t.kmeter.dropLast,
               iec1meter := t.iec1meter.dropLast,
               iec2meter := t.iec2meter.dropLast,
               vumeter := t.vumeter.dropLast }) s).current_meters = s.current_meters) ∧
    (((List.range k).foldl (fun t _ =>
      { t with kmeter := t.kmeter.dropLast,
               iec1meter := t.iec1meter.dropLast,
               iec2meter := t.iec2meter.dropLast,
               vumeter := t.vumeter.dropLast }) s).meter_type = s.meter_type) ∧
    (((List.range k).foldl (fun t _ =>
      { t with kmeter := t.kmeter.dropLast,
               iec1meter := t.iec1meter.dropLast,
               iec2meter := t.iec2meter.dropLast,
               vumeter := t.vumeter.dropLast }) s).active = s.active) ∧
    (((List.range k).foldl (fun t _ =>
      { t with kmeter := t.kmeter.dropLast,
               iec1meter := t.iec1meter.dropLast,
               iec2meter := t.iec2meter.dropLast,
               vumeter := t.vumeter.dropLast }) s).pending_active = s.pending_active) := by
  induction k with
  | zero => simp
  | succ k ih =>
      obtain ⟨i1, i2, i3, i4, i5, i6, i7, i8, i9, i10, i11, i12⟩ := ih
      rw [List.range_succ, List.foldl_append, List.foldl_cons, List.foldl_nil]
      refine ⟨?_, ?_, ?_, ?_, ?_, ?_, ?_, ?_, ?_, ?_, ?_, ?_⟩ <;>
        simp [i1, i2, i3, i4, i5, i6, i7, i8, i9, i10, i11, i12] <;> omega

lemma growFoldUnits (k : ℕ) (s : PeakMeter) :
    (((List.range k).foldl (fun t _ =>
      { t with kmeter := t.kmeter ++ [Ballistics.fresh],
               iec1meter := t.iec1meter ++ [Ballistics.fresh],
               iec2meter := t.iec2meter ++ [Ballistics.fresh],
               vumeter := t.vumeter ++ [Ballistics.fresh] }) s).kmeter.length = s.kmeter.length + k) ∧
    (((List.range k).foldl (fun t _ =>
      { t with kmeter := t.kmeter ++ [Ballistics.fresh],
               iec1meter := t.iec1meter ++ [Ballistics.fresh],
               iec2meter := t.iec2meter ++ [Ballistics.fresh],
               vumeter := t.vumeter ++ [Ballistics.fresh] }) s).iec1meter.length = s.iec1meter.length + k) ∧
    (((List.range k).foldl (fun t _ =>
      { t with kmeter := t.kmeter ++ [Ballistics.fresh],
               iec1meter := t.iec1meter ++ [Ballistics.fresh],
               iec2meter := t.iec2meter ++ [Ballistics.fresh],
               vumeter := t.vumeter ++ [Ballistics.fresh] }) s).iec2meter.length = s.iec2meter.length + k) ∧
    (((List.range k).foldl (fun t _ =>
      { t with kmeter := t.kmeter ++ [Ballistics.fresh],
               iec1meter := t.iec1meter ++ [Ballistics.fresh],
               iec2meter := t.iec2meter ++ [Ballistics.fresh],
               vumeter := t.vumeter ++ [Ballistics.fresh] }) s).vumeter.length = s.vumeter.length + k) ∧
    (((List.range k).foldl (fun t _ =>
      { t with kmeter := t.kmeter ++ [Ballistics.fresh],
               iec1meter := t.iec1meter ++ [Ballistics.fresh],
               iec2meter := t.iec2meter ++ [Ballistics.fresh],
               vumeter := t.vumeter ++ [Ballistics.fresh] }) s).peak_signal = s.peak_signal) ∧
    (((List.range k).foldl (fun t _ =>
      { t with kmeter := t.kmeter ++ [Ballistics.fresh],
               iec1meter := t.iec1meter ++ [Ballistics.fresh],
               iec2meter := t.iec2meter ++ [Ballistics.fresh],
               vumeter := t.vumeter ++ [Ballistics.fresh] }) s).visible_peak_power = s.visible_peak_power) ∧
    (((List.range k).foldl (fun t _ =>
      { t with kmeter := t.kmeter ++ [Ballistics.fresh],
               iec1meter := t.iec1meter ++ [Ballistics.fresh],
               iec2meter := t.iec2meter ++ [Ballistics.fresh],
               vumeter := t.vumeter ++ [Ballistics.fresh] }) s).max_peak_signal = s.max_peak_signal) ∧
    (((List.range k).foldl (fun t _ =>
      { t with kmeter := t.kmeter ++ [Ballistics.fresh],
               iec1meter := t.iec1meter ++ [Ballistics.fresh],
               iec2meter := t.iec2meter ++ [Ballistics.fresh],
               vumeter := t.vumeter ++ [Ballistics.fresh] }) s).max_peak_power = s.max_peak_power) ∧
    (((List.range k).foldl (fun t _ =>
      { t with kmeter := t.kmeter ++ [Ballistics.fresh],
               iec1meter := t.iec1meter ++ [Ballistics.fresh],
               iec2meter := t.iec2meter ++ [Ballistics.fresh],
               vumeter := t.vumeter ++ [Ballistics.fresh] }) s).current_meters = s.current_meters) ∧
    (((List.range k).foldl (fun t _ =>
      { t with kmeter := t.kmeter ++ [Ballistics.fresh],
               iec1meter := t.iec1meter ++ [Ballistics.fresh],
               iec2meter := t.iec2meter ++ [Ballistics.fresh],
               vumeter := t.vumeter ++ [Ballistics.fresh] }) s).meter_type = s.meter_type) ∧
    (((List.range k).foldl (fun t _ =>
      { t with kmeter := t.kmeter ++ [Ballistics.fresh],
               iec1meter := t.iec1meter ++ [Ballistics.fresh],
               iec2meter := t.iec2meter ++ [Ballistics.fresh],
               vumeter := t.vumeter ++ [Ballistics.fresh] }) s).active = s.active) ∧
    (((List.range k).foldl (fun t _ =>
      { t with kmeter := t.kmeter ++ [Ballistics.fresh],
               iec1meter := t.iec1meter ++ [Ballistics.fresh],
               iec2meter := t.iec2meter ++ [Ballistics.fresh],
               vumeter := t.vumeter ++ [Ballistics.fresh] }) s).pending_active = s.pending_active) := by
  induction k with
  | zero => simp
  | succ k ih =>
      obtain ⟨i1, i2, i3, i4, i5, i6, i7, i8, i9, i10, i11, i12⟩ := ih
      rw [List.range_succ, List.foldl_append, List.foldl_cons, List.foldl_nil]
      refine ⟨?_, ?_, ?_, ?_, ?_, ?_, ?_, ?_, ?_, ?_, ?_, ?_⟩ <;>
        simp [i1, i2, i3, i4, i5, i6, i7, i8, i9, i10, i11, i12] <;> omega

lemma reset_spec (s : PeakMeter) :
    (PeakMeter.reset s).peak_signal.length = s.peak_signal.length ∧
    (PeakMeter.reset s).visible_peak_power = s.visible_peak_power ∧
    (PeakMeter.reset s).max_peak_signal = s.max_peak_signal ∧
    (PeakMeter.reset s).max_peak_power = s.max_peak_power ∧
    (PeakMeter.reset s).kmeter.length = s.kmeter.length ∧
    (PeakMeter.reset s).iec1meter.length = s.iec1meter.length ∧
    (PeakMeter.reset s).iec2meter.length = s.iec2meter.length ∧
    (PeakMeter.reset s).vumeter.length = s.vumeter.length ∧
    (PeakMeter.reset s).current_meters = s.current_meters ∧
    (PeakMeter.reset s).meter_type = s.meter_type ∧
    (PeakMeter.reset s).active = s.active ∧
    (PeakMeter.reset s).pending_active = s.pending_active ∧
    (∀ i, (PeakMeter.reset s).peak_signal.getD i 0 =
      if i < s.peak_signal.length then 0 else s.peak_signal.getD i 0) := by
  unfold PeakMeter.reset
  refine ⟨setFold_length _ (fun _ _ => (0 : ℚ)) 0 (fun _ _ => rfl) _ _,
    rfl, rfl, rfl,
    setFold_length _ (fun _ v => Ballistics.reset v) 0 (fun _ _ => rfl) _ _,
    setFold_length _ (fun _ v => Ballistics.reset v) 0 (fun _ _ => rfl) _ _,
    setFold_length _ (fun _ v => Ballistics.reset v) 0 (fun _ _ => rfl) _ _,
    setFold_length _ (fun _ v => Ballistics.reset v) 0 (fun _ _ => rfl) _ _,
    rfl, rfl, rfl, rfl, ?_⟩
  intro i
  rw [setFold_range_getD _ (fun _ _ => (0 : ℚ)) 0 (fun _ _ => rfl)]
  by_cases h : i < s.peak_signal.length
  · simp [h]
  · simp [h]

lemma reset_max_channels_spec (s : PeakMeter) (chn : ChanCount)
    (hm : s.metricsAligned) (hu : s.unitsAligned) :
    (PeakMeter.reset_max_channels s chn).peak_signal.length = chn.n_total ∧
    (PeakMeter.reset_max_channels s chn).visible_peak_power.length = chn.n_total ∧
    (PeakMeter.reset_max_channels s chn).max_peak_signal.length = chn.n_total ∧
    (PeakMeter.reset_max_channels s chn).max_peak_power.length = chn.n_total ∧
    (PeakMeter.reset_max_channels s chn).kmeter.length = chn.audio ∧
    (PeakMeter.reset_max_channels s chn).iec1meter.length = chn.audio ∧
    (PeakMeter.reset_max_channels s chn).iec2meter.length = chn.audio ∧
    (PeakMeter.reset_max_channels s chn).vumeter.length = chn.audio ∧
    (PeakMeter.reset_max_channels s chn).current_meters = s.current_meters ∧
    (PeakMeter.reset_max_channels s chn).meter_type = s.meter_type ∧
    (∀ i < chn.n_total, (PeakMeter.reset_max_channels s chn).peak_signal.getD i 0 = 0) ∧
    (∀ i < chn.n_total,
      (PeakMeter.reset_max_channels s chn).max_peak_signal.getD i 0 = 0 ∧
      (PeakMeter.reset_max_channels s chn).max_peak_power.getD i ⊥ = ⊥) ∧
    (∀ i < chn.n_total,
      (PeakMeter.reset_max_channels s chn).visible_peak_power.getD i ⊥ =
        if i < min chn.n_total s.current_meters.midi then ((0 : ℚ) : MFloat) else ⊥) := by
  obtain ⟨hm1, hm2, hm3⟩ := hm
  obtain ⟨hu1, hu2, hu3⟩ := hu
  unfold PeakMeter.reset_max_channels PeakMeter.shrinkMetrics PeakMeter.growMetrics
    PeakMeter.shrinkUnits PeakMeter.growUnits
  obtain ⟨a1, a2, a3, a4, a5, a6, a7, a8, a9, a10, a11, a12⟩ := dropFoldMetrics (s.peak_signal.length - chn.n_total) s
  set s1 := (List.range (s.peak_signal.length - chn.n_total)).foldl _ s with hs1
  obtain ⟨b1, b2, b3, b4, b5, b6, b7, b8, b9, b10, b11, b12⟩ := growFoldMetrics (chn.n_total - s1.peak_signal.length) s1
  set s2 := (List.range (chn.n_total - s1.peak_signal.length)).foldl _ s1 with hs2
  obtain ⟨c1, c2, c3, c4, c5, c6, c7, c8, c9, c10, c11, c12⟩ := dropFoldUnits (s2.kmeter.length - chn.audio) s2
  set s3 := (List.range (s2.kmeter.length - chn.audio)).foldl _ s2 with hs3
  obtain ⟨d1, d2, d3, d4, d5, d6, d7, d8, d9, d10, d11, d12⟩ := growFoldUnits (chn.audio - s3.kmeter.length) s3
  set s4 := (List.range (chn.audio - s3.kmeter.length)).foldl _ s3 with hs4
  obtain ⟨e1, e2, e3, e4, e5, e6, e7, e8, e9, e10, e11, e12, e13⟩ := reset_spec s4
  set s5 := PeakMeter.reset s4 with hs5
  obtain ⟨f1, f2, f3, f4, f5, f6, f7, f8, f9, f10, f11, f12, f13, f14, f15⟩ := reset_max_spec s5
  -- lengths at each stage
  have L1 : s1.peak_signal.length = s.peak_signal.length - (s.peak_signal.length - chn.n_total) := a1
  have L2 : s2.peak_signal.length = chn.n_total := by rw [b1, L1]; omega
  have LV2 : s2.visible_peak_power.length = chn.n_total := by
    rw [b2, a2, hm1, L1]; omega
  have LS2 : s2.max_peak_signal.length = chn.n_total := by
    rw [b3, a3, hm2, L1]; omega
  have LP2 : s2.max_peak_power.length = chn.n_total := by
    rw [b4, a4, hm3, L1]; omega
  have K2 : s2.kmeter.length = s.kmeter.length := by rw [b5, a5]
  have K4 : s4.kmeter.length = chn.audio := by rw [d1, c1, K2]; omega
  have I4 : s4.iec1meter.length = chn.audio := by rw [d2, c2, b6, a6, hu1, K2]; omega
  have J4 : s4.iec2meter.length = chn.audio := by rw [d3, c3, b7, a7, hu2, K2]; omega
  have V4 : s4.vumeter.length = chn.audio := by rw [d4, c4, b8, a8, hu3, K2]; omega
  have P4 : s4.peak_signal = s2.peak_signal := by rw [d5, c5]
  have P4len : s4.peak_signal.length = chn.n_total := by rw [P4, L2]
  have VV4 : s4.visible_peak_power.length = chn.n_total := by rw [d6, c6, LV2]
  have SS4 : s4.max_peak_signal.length = chn.n_total := by rw [d7, c7, LS2]
  have PP4 : s4.max_peak_power.length = chn.n_total := by rw [d8, c8, LP2]
  have CM4 : s4.current_meters = s.current_meters := by rw [d9, c9, b9, a9]
  have MT4 : s4.meter_type = s.meter_type := by rw [d10, c10, b10, a10]
  have P5len : s5.peak_signal.length = chn.n_total := by rw [e1, P4len]
  have VV5 : s5.visible_peak_power.length = chn.n_total := by rw [e2, VV4]
  have SS5 : s5.max_peak_signal.length = chn.n_total := by rw [e3, SS4]
  have PP5 : s5.max_peak_power.length = chn.n_total := by rw [e4, PP4]
  have CM5 : s5.current_meters = s.current_meters := by rw [e9, CM4]
  refine ⟨by rw [f4]; exact P5len, by rw [f3]; exact VV5, by rw [f2]; exact SS5,
    by rw [f1]; exact PP5, by rw [f5, e5]; exact K4, by rw [f6, e6]; exact I4,
    by rw [f7, e7]; exact J4, by rw [f8, e8]; exact V4, by rw [f9]; exact CM5,
    by rw [f10, e10]; exact MT4, ?_, ?_, ?_⟩
  · intro i hi
    rw [f4, e13 i, if_pos]
    rw [P4, L2]
    exact hi
  · intro i hi
    constructor
    · rw [f14 i, if_pos ⟨by rw [PP5]; exact hi, by rw [SS5]; exact hi⟩]
    · rw [f13 i, if_pos (by rw [PP5]; exact hi)]
  · intro i hi
    rw [f15 i, if_pos ⟨by rw [P5len]; exact hi, by rw [VV5]; exact hi⟩, P5len, CM5]

/-- C5: for every accepted layout with `m` MIDI and `a` audio channels
(already stored in `current_meters`, as on the `configure_io` path), after
`reset_max_channels` the four metric arrays have length `m+a`, the four
ballistics unit arrays have length `a`, and all raw, visible and maximum
state is at its baseline. -/
theorem C5_reconfigure (s : PeakMeter) (chn : ChanCount)
    (hm : s.metricsAligned) (hu : s.unitsAligned)
    (hcm : s.current_meters = chn) :
    (PeakMeter.reset_max_channels s chn).peak_signal.length = chn.n_total ∧
    (PeakMeter.reset_max_channels s chn).visible_peak_power.length = chn.n_total ∧
    (PeakMeter.reset_max_channels s chn).max_peak_signal.length = chn.n_total ∧
    (PeakMeter.reset_max_channels s chn).max_peak_power.length = chn.n_total ∧
    (PeakMeter.reset_max_channels s chn).kmeter.length = chn.audio ∧
    (PeakMeter.reset_max_channels s chn).iec1meter.length = chn.audio ∧
    (PeakMeter.reset_max_channels s chn).iec2meter.length = chn.audio ∧
    (PeakMeter.reset_max_channels s chn).vumeter.length = chn.audio ∧
    (∀ i < chn.n_total, (PeakMeter.reset_max_channels s chn).peak_signal.getD i 0 = 0) ∧
    (∀ i < chn.n_total,
      (PeakMeter.reset_max_channels s chn).max_peak_signal.getD i 0 = 0 ∧
      (PeakMeter.reset_max_channels s chn).max_peak_power.getD i ⊥ = ⊥) ∧
    (∀ i < chn.n_total,
      (PeakMeter.reset_max_channels s chn).visible_peak_power.getD i ⊥ =
        if i < chn.midi then ((0 : ℚ) : MFloat) else ⊥) := by
  obtain ⟨g1, g2, g3, g4, g5, g6, g7, g8, g9, g10, g11, g12, g13⟩ :=
    reset_max_channels_spec s chn hm hu
  refine ⟨g1, g2, g3, g4, g5, g6, g7, g8, g11, g12, ?_⟩
  intro i hi
  rw [g13 i hi, hcm]
  have hmin : min chn.n_total chn.midi = chn.midi :=
    min_eq_right (by unfold ChanCount.n_total; omega)
  rw [hmin]

/-- C5 witness: reconfiguring the concrete 1+1-channel state to the same
layout resizes every array to the layout's counts and resets all state. -/
theorem C5_witness :
    exC5.metricsAligned ∧ exC5.unitsAligned ∧
    exC5.current_meters = (⟨1, 1⟩ : ChanCount) ∧
    ((PeakMeter.reset_max_channels exC5 ⟨1, 1⟩).peak_signal.length =
      (⟨1, 1⟩ : ChanCount).n_total ∧
     (PeakMeter.reset_max_channels exC5 ⟨1, 1⟩).visible_peak_power.length =
      (⟨1, 1⟩ : ChanCount).n_total ∧
     (PeakMeter.reset_max_channels exC5 ⟨1, 1⟩).max_peak_signal.length =
      (⟨1, 1⟩ : ChanCount).n_total ∧
     (PeakMeter.reset_max_channels exC5 ⟨1, 1⟩).max_peak_power.length =
      (⟨1, 1⟩ : ChanCount).n_total ∧
     (PeakMeter.reset_max_channels exC5 ⟨1, 1⟩).kmeter.length = (⟨1, 1⟩ : ChanCount).audio ∧
     (PeakMeter.reset_max_channels exC5 ⟨1, 1⟩).iec1meter.length = (⟨1, 1⟩ : ChanCount).audio ∧
     (PeakMeter.reset_max_channels exC5 ⟨1, 1⟩).iec2meter.length = (⟨1, 1⟩ : ChanCount).audio ∧
     (PeakMeter.reset_max_channels exC5 ⟨1, 1⟩).vumeter.length = (⟨1, 1⟩ : ChanCount).audio ∧
     (∀ i < (⟨1, 1⟩ : ChanCount).n_total,
       (PeakMeter.reset_max_channels exC5 ⟨1, 1⟩).peak_signal.getD i 0 = 0) ∧
     (∀ i < (⟨1, 1⟩ : ChanCount).n_total,
       (PeakMeter.reset_max_channels exC5 ⟨1, 1⟩).max_peak_signal.getD i 0 = 0 ∧
       (PeakMeter.reset_max_channels exC5 ⟨1, 1⟩).max_peak_power.getD i ⊥ = ⊥) ∧
     (∀ i < (⟨1, 1⟩ : ChanCount).n_total,
       (PeakMeter.reset_max_channels exC5 ⟨1, 1⟩).visible_peak_power.getD i ⊥ =
         if i < (⟨1, 1⟩ : ChanCount).midi then ((0 : ℚ) : MFloat) else ⊥)) :=
  ⟨by decide, by decide, rfl,
    C5_reconfigure exC5 ⟨1, 1⟩ (by decide) (by decide) rfl⟩

/-! Characterisation of the Capture stage (`PeakMeter::run`). -/

lemma audioStep_facts (ops : DspOps) (bufs : BufferSet) (n_midi mtype : ℕ)
    (t : PeakMeter) (j : ℕ) :
    (audioStep ops bufs n_midi mtype t j).peak_signal.length = t.peak_signal.length ∧
    (audioStep ops bufs n_midi mtype t j).current_meters = t.current_meters ∧
    (audioStep ops bufs n_midi mtype t j).active = t.active ∧
    (audioStep ops bufs n_midi mtype t j).pending_active = t.pending_active ∧
    (audioStep ops bufs n_midi mtype t j).visible_peak_power = t.visible_peak_power ∧
    (audioStep ops bufs n_midi mtype t j).max_peak_signal = t.max_peak_signal ∧
    (audioStep ops bufs n_midi mtype t j).max_peak_power = t.max_peak_power ∧
    (audioStep ops bufs n_midi mtype t j).meter_type = t.meter_type ∧
    (audioStep ops bufs n_midi mtype t j).kmeter.length = t.kmeter.length ∧
    (audioStep ops bufs n_midi mtype t j).iec1meter.length = t.iec1meter.length ∧
    (audioStep ops bufs n_midi mtype t j).iec2meter.length = t.iec2meter.length ∧
    (audioStep ops bufs n_midi mtype t j).vumeter.length = t.vumeter.length := by
  simp only [audioStep]
  split_ifs <;> simp

lemma audioStep_peak_ne (ops : DspOps) (bufs : BufferSet) (n_midi mtype : ℕ)
    (t : PeakMeter) (j p : ℕ) (hp : p ≠ n_midi + j) :
    (audioStep ops bufs n_midi mtype t j).peak_signal.getD p 0 = t.peak_signal.getD p 0 := by
  have h : n_midi + j ≠ p := fun h => hp h.symm
  simp only [audioStep]
  split_ifs <;> simp [List.getElem?_set_ne h]

lemma audioStep_peak_eq (ops : DspOps) (bufs : BufferSet) (n_midi mtype : ℕ)
    (t : PeakMeter) (j : ℕ) (hin : n_midi + j < t.peak_signal.length) :
    (audioStep ops bufs n_midi mtype t j).peak_signal.getD (n_midi + j) 0 =
      if (bufs.audio.getD j AudioBuffer.empty).silent then 0
      else compute_peak (bufs.audio.getD j AudioBuffer.empty).samples
        (t.peak_signal.getD (n_midi + j) 0) := by
  simp only [audioStep]
  split_ifs <;> simp [List.getElem?_set_eq_of_lt _ hin]

lemma audioFold_peak (ops : DspOps) (bufs : BufferSet) (n_midi mtype : ℕ) :
    ∀ (m : ℕ) (t : PeakMeter),
      ((List.range m).foldl (audioStep ops bufs n_midi mtype) t).peak_signal.length
        = t.peak_signal.length ∧
      ((List.range m).foldl (audioStep ops bufs n_midi mtype) t).current_meters
        = t.current_meters ∧
      ((List.range m).foldl (audioStep ops bufs n_midi mtype) t).active = t.active ∧
      ((List.range m).foldl (audioStep ops bufs n_midi mtype) t).pending_active
        = t.pending_active ∧
      (∀ p, p < n_midi →
        ((List.range m).foldl (audioStep ops bufs n_midi mtype) t).peak_signal.getD p 0
          = t.peak_signal.getD p 0) ∧
      (∀ j, j < m → n_midi + j < t.peak_signal.length →
        ((List.range m).foldl (audioStep ops bufs n_midi mtype) t).peak_signal.getD (n_midi + j) 0
          = (if (bufs.audio.getD j AudioBuffer.empty).silent then 0
             else compute_peak (bufs.audio.getD j AudioBuffer.empty).samples
               (t.peak_signal.getD (n_midi + j) 0))) ∧
      (∀ j, m ≤ j →
        ((List.range m).foldl (audioStep ops bufs n_midi mtype) t).peak_signal.getD (n_midi + j) 0
          = t.peak_signal.getD (n_midi + j) 0) := by
  intro m
  induction m with
  | zero =>
      intro t
      simp
  | succ m ih =>
      intro t
      obtain ⟨l1, l2, l3, l4, hlt, heq, hge⟩ := ih t
      have hstep : (List.range (m + 1)).foldl (audioStep ops bufs n_midi mtype) t
          = audioStep ops bufs n_midi mtype
              ((List.range m).foldl (audioStep ops bufs n_midi mtype) t) m := by
        rw [List.range_succ, List.foldl_append, List.foldl_cons, List.foldl_nil]
      rw [hstep]
      set F := (List.range m).foldl (audioStep ops bufs n_midi mtype) t with hF
      obtain ⟨s1, s2, s3, s4, -, -, -, -, -, -, -, -⟩ :=
        audioStep_facts ops bufs n_midi mtype F m
      refine ⟨by rw [s1, l1], by rw [s2, l2], by rw [s3, l3], by rw [s4, l4], ?_, ?_, ?_⟩
      · intro p hp
        rw [audioStep_peak_ne ops bufs n_midi mtype F m p (by omega), hlt p hp]
      · intro j hj hjin
        by_cases hjm : j < m
        · rw [audioStep_peak_ne ops bufs n_midi mtype F m (n_midi + j) (by omega),
            heq j hjm hjin]
        · have hjeq : j = m := by omega
          subst hjeq
          rw [audioStep_peak_eq ops bufs n_midi mtype F j (by rw [l1]; exact hjin),
            hge j (le_refl j)]
      · intro j hj
        rw [audioStep_peak_ne ops bufs n_midi mtype F m (n_midi + j) (by omega),
          hge j (by omega)]

lemma run_spec (ops : DspOps) (s : PeakMeter) (bufs : BufferSet)
    (hact : ¬ (s.active = false ∧ s.pending_active = false)) :
    (PeakMeter.run ops s bufs).current_meters = s.current_meters ∧
    (PeakMeter.run ops s bufs).peak_signal.length = s.peak_signal.length ∧
    (∀ p, p < min s.current_meters.midi bufs.midi.length →
      (PeakMeter.run ops s bufs).peak_signal.getD p 0 =
        (if p < s.peak_signal.length then
          max (midiVal (bufs.midi.getD p MidiBuffer.empty)) (s.peak_signal.getD p 0)
         else s.peak_signal.getD p 0)) ∧
    (∀ j, j < min s.current_meters.audio bufs.audio.length →
      min s.current_meters.midi bufs.midi.length + j < s.peak_signal.length →
      (PeakMeter.run ops s bufs).peak_signal.getD
          (min s.current_meters.midi bufs.midi.length + j) 0 =
        (if (bufs.audio.getD j AudioBuffer.empty).silent then 0
         else compute_peak (bufs.audio.getD j AudioBuffer.empty).samples
           (s.peak_signal.getD (min s.current_meters.midi bufs.midi.length + j) 0))) := by
  unfold PeakMeter.run
  rw [if_neg hact]
  set nm := min s.current_meters.midi bufs.midi.length with hnm
  set na := min s.current_meters.audio bufs.audio.length with hna
  set ps1 := (List.range nm).foldl
    (fun l n => l.set n (max (midiVal (bufs.midi.getD n MidiBuffer.empty)) (l.getD n 0)))
    s.peak_signal with hps1
  set s1 : PeakMeter := { s with peak_signal := ps1 } with hs1
  set F := (List.range na).foldl (audioStep ops bufs nm s.meter_type) s1 with hF
  set ps3 := (List.range' (nm + na) (F.peak_signal.length - (nm + na))).foldl
    (fun l i => l.set i (0 : ℚ)) F.peak_signal with hps3
  have hl1 : ps1.length = s.peak_signal.length := by
    rw [hps1]
    exact setFold_length _
      (fun n v => max (midiVal (bufs.midi.getD n MidiBuffer.empty)) v) 0
      (fun _ _ => rfl) _ _
  have hps1getD : ∀ p, ps1.getD p 0 =
      if p < nm ∧ p < s.peak_signal.length then
        max (midiVal (bufs.midi.getD p MidiBuffer.empty)) (s.peak_signal.getD p 0)
      else s.peak_signal.getD p 0 := by
    intro p
    rw [hps1]
    exact setFold_range_getD _
      (fun n v => max (midiVal (bufs.midi.getD n MidiBuffer.empty)) v) 0
      (fun _ _ => rfl) _ _ _
  obtain ⟨a1, a2, a3, a4, a5, a6, a7⟩ := audioFold_peak ops bufs nm s.meter_type na s1
  rw [← hF] at a1 a2 a5 a6 a7
  have hs1ps : s1.peak_signal = ps1 := by rw [hs1]
  have hs1cm : s1.current_meters = s.current_meters := by rw [hs1]
  have hFlen : F.peak_signal.length = s.peak_signal.length := by
    rw [a1, hs1ps, hl1]
  have hl3 : ps3.length = s.peak_signal.length := by
    rw [hps3, setFold_length _ (fun _ _ => (0 : ℚ)) 0 (fun _ _ => rfl) _ _, hFlen]
  have hps3notMem : ∀ p, p < nm + na → ps3.getD p 0 = F.peak_signal.getD p 0 := by
    intro p hp
    rw [hps3]
    refine setFold_getD_notMem _ (fun _ _ => (0 : ℚ)) 0 (fun _ _ => rfl) _ _ p ?_
    rw [List.mem_range'_1]
    omega
  refine ⟨?_, ?_, ?_, ?_⟩
  · show F.current_meters = s.current_meters
    exact a2.trans hs1cm
  · show ps3.length = s.peak_signal.length
    exact hl3
  · intro p hp
    show ps3.getD p 0 = _
    have h1 : ps3.getD p 0 = F.peak_signal.getD p 0 := hps3notMem p (by omega)
    have h2 : F.peak_signal.getD p 0 = s1.peak_signal.getD p 0 := a5 p hp
    have h3 : s1.peak_signal.getD p 0 = ps1.getD p 0 := by rw [hs1ps]
    rw [h1, h2, h3, hps1getD p]
    by_cases hlen : p < s.peak_signal.length
    · rw [if_pos ⟨hp, hlen⟩, if_pos hlen]
    · rw [if_neg (by omega : ¬ (p < nm ∧ p < s.peak_signal.length)), if_neg hlen]
  · intro j hj hjin
    show ps3.getD (nm + j) 0 = _
    have h1 : ps3.getD (nm + j) 0 = F.peak_signal.getD (nm + j) 0 :=
      hps3notMem (nm + j) (by omega)
    have h2 := a6 j hj (by rw [hs1ps, hl1]; exact hjin)
    have h3 : s1.peak_signal.getD (nm + j) 0 = s.peak_signal.getD (nm + j) 0 := by
      rw [hs1ps, hps1getD (nm + j)]
      have hne : ¬ (nm + j < nm ∧ nm + j < s.peak_signal.length) := by omega
      rw [if_neg hne]
    rw [h1, h2, h3]

lemma foldl_maxabs_shift (data : List ℚ) :
    ∀ c : ℚ, 0 ≤ c →
      data.foldl (fun a x => max a |x|) c = max c (data.foldl (fun a x => max a |x|) 0) := by
  induction data with
  | nil => intro c hc; simp [max_eq_left hc]
  | cons x data ih =>
      intro c hc
      simp only [List.foldl_cons]
      rw [ih (max c |x|) (le_trans hc (le_max_left _ _)),
        ih (max 0 |x|) (le_max_left _ _), max_eq_right (abs_nonneg x), ← max_assoc]

lemma compute_peak_eq_max (data : List ℚ) (c : ℚ) (hc : 0 ≤ c) :
    compute_peak data c = max c (peakAbs data) := by
  unfold compute_peak peakAbs
  exact foldl_maxabs_shift data c hc

lemma midiStep_le (cap : ℕ) (c : ℚ) (hc : c ≤ 1) (val : ℚ) (e : MidiEvent)
    (h : c ≤ val) : c ≤ midiStep cap val e := by
  have hcap : 0 ≤ 1 / (cap : ℚ) := one_div_nonneg.mpr (Nat.cast_nonneg cap)
  unfold midiStep
  split_ifs with h1 h2 h3
  · linarith
  · exact h
  · exact hc
  · linarith

lemma foldl_midiStep_ge (cap : ℕ) (c : ℚ) (hc : c ≤ 1) :
    ∀ (l : List MidiEvent) (val : ℚ), c ≤ val → c ≤ l.foldl (midiStep cap) val := by
  intro l
  induction l with
  | nil => intro val h; exact h
  | cons e l ih => intro val h; exact ih _ (midiStep_le cap c hc val e h)

lemma foldl_midiStep_mem (cap : ℕ) (e : MidiEvent) (hOn : e.isNoteOn = true)
    (hv : e.velocity ≤ 127) :
    ∀ (l : List MidiEvent) (val : ℚ), e ∈ l →
      (e.velocity : ℚ) / 127 ≤ l.foldl (midiStep cap) val := by
  have hc : (e.velocity : ℚ) / 127 ≤ 1 := by
    rw [div_le_one (by norm_num : (0 : ℚ) < 127)]
    exact_mod_cast hv
  intro l
  induction l with
  | nil => intro val h; simp at h
  | cons a l ih =>
      intro val hmem
      rw [List.foldl_cons]
      rcases List.mem_cons.mp hmem with rfl | htail
      · apply foldl_midiStep_ge cap _ hc
        unfold midiStep
        rw [if_pos hOn]
        split_ifs with h2
        · exact le_refl _
        · exact not_lt.mp h2
      · exact ih (midiStep cap val a) htail

lemma midiVal_ge (buf : MidiBuffer) (e : MidiEvent) (he : e ∈ buf.events)
    (hOn : e.isNoteOn = true) (hv : e.velocity ≤ 127) :
    (e.velocity : ℚ) / 127 ≤ midiVal buf := by
  unfold midiVal
  exact foldl_midiStep_mem buf.capacity e hOn hv buf.events 0 he

lemma run_midi_mono (ops : DspOps) (s : PeakMeter) (bufs : BufferSet) (p : ℕ)
    (hpm : p < s.current_meters.midi) (hpb : p < bufs.midi.length) :
    s.peak_signal.getD p 0 ≤ (PeakMeter.run ops s bufs).peak_signal.getD p 0 ∧
    (PeakMeter.run ops s bufs).current_meters = s.current_meters := by
  by_cases hact : s.active = false ∧ s.pending_active = false
  · unfold PeakMeter.run
    rw [if_pos hact]
    exact ⟨le_refl _, rfl⟩
  · obtain ⟨hcm, -, hmidi, -⟩ := run_spec ops s bufs hact
    refine ⟨?_, hcm⟩
    rw [hmidi p (by omega)]
    by_cases hlen : p < s.peak_signal.length
    · rw [if_pos hlen]
      exact le_max_right _ _
    · rw [if_neg hlen]

lemma runSeq_midi_mono (ops : DspOps) :
    ∀ (L : List BufferSet) (s : PeakMeter) (p : ℕ),
      p < s.current_meters.midi → (∀ b ∈ L, p < b.midi.length) →
      s.peak_signal.getD p 0 ≤ (L.foldl (PeakMeter.run ops) s).peak_signal.getD p 0 := by
  intro L
  induction L with
  | nil => intro s p _ _; exact le_refl _
  | cons b L ih =>
      intro s p hpm hall
      rw [List.foldl_cons]
      obtain ⟨h1, hcm⟩ := run_midi_mono ops s b p hpm (hall b (List.mem_cons_self b L))
      refine le_trans h1 (ih _ p ?_ ?_)
      · rw [hcm]
        exact hpm
      · intro b2 hb2
        exact hall b2 (List.mem_cons_of_mem b hb2)

/-- C7: a Capture call on a processed audio channel whose supplied block is
declared silent leaves `raw_signal` exactly `0` at the end of the call,
regardless of the prior accumulated value; on a non-silent block it leaves
the maximum of the prior raw value and the block's peak absolute sample. -/
theorem C7_capture_audio (ops : DspOps) (s : PeakMeter) (bufs : BufferSet) (j : ℕ)
    (hact : ¬ (s.active = false ∧ s.pending_active = false))
    (hj : j < min s.current_meters.audio bufs.audio.length)
    (hin : min s.current_meters.midi bufs.midi.length + j < s.peak_signal.length)
    (hprior : 0 ≤ s.peak_signal.getD (min s.current_meters.midi bufs.midi.length + j) 0) :
    ((bufs.audio.getD j AudioBuffer.empty).silent = true →
      (PeakMeter.run ops s bufs).peak_signal.getD
        (min s.current_meters.midi bufs.midi.length + j) 0 = 0) ∧
    ((bufs.audio.getD j AudioBuffer.empty).silent = false →
      (PeakMeter.run ops s bufs).peak_signal.getD
        (min s.current_meters.midi bufs.midi.length + j) 0 =
        max (s.peak_signal.getD (min s.current_meters.midi bufs.midi.length + j) 0)
          (peakAbs (bufs.audio.getD j AudioBuffer.empty).samples)) := by
  obtain ⟨-, -, -, haud⟩ := run_spec ops s bufs hact
  have h := haud j hj hin
  constructor
  · intro hs
    rw [h, if_pos hs]
  · intro hs
    have hns : ¬ ((bufs.audio.getD j AudioBuffer.empty).silent = true) := by
      rw [hs]
      exact Bool.false_ne_true
    rw [h, if_neg hns, compute_peak_eq_max _ _ hprior]

/-- C7 witness: with a prior raw value of 1/2, a non-silent block of samples
`[1, -2]` leaves `max (1/2) 2`, and a silent block leaves `0`. -/
theorem C7_witness :
    ¬ (exC7.active = false ∧ exC7.pending_active = false) ∧
    ((bufsC7.audio.getD 0 AudioBuffer.empty).silent = false →
      (PeakMeter.run opsC7 exC7 bufsC7).peak_signal.getD
        (min exC7.current_meters.midi bufsC7.midi.length + 0) 0 =
        max (exC7.peak_signal.getD (min exC7.current_meters.midi bufsC7.midi.length + 0) 0)
          (peakAbs (bufsC7.audio.getD 0 AudioBuffer.empty).samples)) ∧
    ((bufsC7s.audio.getD 0 AudioBuffer.empty).silent = true →
      (PeakMeter.run opsC7 exC7 bufsC7s).peak_signal.getD
        (min exC7.current_meters.midi bufsC7s.midi.length + 0) 0 = 0) :=
  ⟨by decide,
   (C7_capture_audio opsC7 exC7 bufsC7 0 (by decide) (by decide) (by decide)
     (by norm_num [exC7, bufsC7])).2,
   (C7_capture_audio opsC7 exC7 bufsC7s 0 (by decide) (by decide) (by decide)
     (by norm_num [exC7, bufsC7s])).1⟩

/-- C8: a Capture call on a processed MIDI channel that carries a note-on of
velocity `v ≤ 127` leaves `raw_signal ≥ v/127`, and across repeated Capture
calls that keep supplying the channel (with no intervening Reduction) the
MIDI channel's raw value is monotone non-decreasing. -/
theorem C8_capture_midi (ops : DspOps) (s : PeakMeter) (bufs : BufferSet)
    (p : ℕ) (e : MidiEvent) (bufsList : List BufferSet)
    (hact : ¬ (s.active = false ∧ s.pending_active = false))
    (hp : p < min s.current_meters.midi bufs.midi.length)
    (hin : p < s.peak_signal.length)
    (he : e ∈ (bufs.midi.getD p MidiBuffer.empty).events)
    (hOn : e.isNoteOn = true) (hv : e.velocity ≤ 127) :
    (e.velocity : ℚ) / 127 ≤ (PeakMeter.run ops s bufs).peak_signal.getD p 0 ∧
    ((∀ b ∈ bufsList, p < b.midi.length) →
      s.peak_signal.getD p 0 ≤
        (bufsList.foldl (PeakMeter.run ops) s).peak_signal.getD p 0) := by
  constructor
  · obtain ⟨-, -, hmidi, -⟩ := run_spec ops s bufs hact
    rw [hmidi p hp, if_pos hin]
    exact le_trans (midiVal_ge _ e he hOn hv) (le_max_left _ _)
  · intro hall
    exact runSeq_midi_mono ops bufsList s p (by omega) hall

/-- C8 witness: a note-on of velocity 64 on the MIDI channel leaves
`raw_signal ≥ 64/127`, and a repeat of the same Capture call is monotone. -/
theorem C8_witness :
    (⟨true, 64⟩ : MidiEvent) ∈ (bufsC8.midi.getD 0 MidiBuffer.empty).events ∧
    ((64 : ℚ) / 127 ≤ (PeakMeter.run opsC8 exC8 bufsC8).peak_signal.getD 0 0 ∧
     ((∀ b ∈ [bufsC8], 0 < b.midi.length) →
       exC8.peak_signal.getD 0 0 ≤
         ([bufsC8].foldl (PeakMeter.run opsC8) exC8).peak_signal.getD 0 0)) :=
  ⟨by decide,
   C8_capture_midi opsC8 exC8 bufsC8 0 ⟨true, 64⟩ [bufsC8] (by decide) (by decide)
     (by decide) (by decide) (by decide) (by decide)⟩

/-- C9: `meter_level` is a total query — our model returns a value for every
index/type pair — and for each ballistics family it returns
`dB(unit.read())` exactly when the index lies inside the audio sub-range of
that family's unit array (the `CHECKSIZE` guard), and the minus-infinity
sentinel for every out-of-range index. -/
theorem C9_meter_level (dB : ℚ → ℚ) (s : PeakMeter) (n : ℕ) (t : ℕ) :
    ((t = MeterKrms ∨ t = MeterK20 ∨ t = MeterK14 ∨ t = MeterK12) →
      PeakMeter.meter_level dB s n t =
        if n < s.kmeter.length + s.current_meters.midi ∧ s.current_meters.midi ≤ n then
          ((dB (Ballistics.read (s.kmeter.getD (n - s.current_meters.midi) 0)) : ℚ) : MFloat)
        else ⊥) ∧
    ((t = MeterIEC1DIN ∨ t = MeterIEC1NOR) →
      PeakMeter.meter_level dB s n t =
        if n < s.iec1meter.length + s.current_meters.midi ∧ s.current_meters.midi ≤ n then
          ((dB (Ballistics.read (s.iec1meter.getD (n - s.current_meters.midi) 0)) : ℚ) : MFloat)
        else ⊥) ∧
    ((t = MeterIEC2BBC ∨ t = MeterIEC2EBU) →
      PeakMeter.meter_level dB s n t =
        if n < s.iec2meter.length + s.current_meters.midi ∧ s.current_meters.midi ≤ n then
          ((dB (Ballistics.read (s.iec2meter.getD (n - s.current_meters.midi) 0)) : ℚ) : MFloat)
        else ⊥) ∧
    (t = MeterVU →
      PeakMeter.meter_level dB s n t =
        if n < s.vumeter.length + s.current_meters.midi ∧ s.current_meters.midi ≤ n then
          ((dB (Ballistics.read (s.vumeter.getD (n - s.current_meters.midi) 0)) : ℚ) : MFloat)
        else ⊥) := by
  refine ⟨?_, ?_, ?_, ?_⟩
  · intro h
    unfold PeakMeter.meter_level
    rw [if_pos h]
  · intro h
    have g1 : ¬ (t = MeterKrms ∨ t = MeterK20 ∨ t = MeterK14 ∨ t = MeterK12) := by
      rcases h with rfl | rfl <;> decide
    unfold PeakMeter.meter_level
    rw [if_neg g1, if_pos h]
  · intro h
    have g1 : ¬ (t = MeterKrms ∨ t = MeterK20 ∨ t = MeterK14 ∨ t = MeterK12) := by
      rcases h with rfl | rfl <;> decide
    have g2 : ¬ (t = MeterIEC1DIN ∨ t = MeterIEC1NOR) := by
      rcases h with rfl | rfl <;> decide
    unfold PeakMeter.meter_level
    rw [if_neg g1, if_neg g2, if_pos h]
  · intro h
    subst h
    have g1 : ¬ (MeterVU = MeterKrms ∨ MeterVU = MeterK20 ∨ MeterVU = MeterK14 ∨ MeterVU = MeterK12) := by decide
    have g2 : ¬ (MeterVU = MeterIEC1DIN ∨ MeterVU = MeterIEC1NOR) := by decide
    have g3 : ¬ (MeterVU = MeterIEC2BBC ∨ MeterVU = MeterIEC2EBU) := by decide
    unfold PeakMeter.meter_level
    rw [if_neg g1, if_neg g2, if_neg g3, if_pos rfl]

/-- C9 witness: on the concrete 1+1-channel state, the K query at the audio
index 1 reads the unit through dB, and at the out-of-range index 5 it
returns the sentinel. -/
theorem C9_witness :
    (MeterKrms = MeterKrms ∨ MeterKrms = MeterK20 ∨ MeterKrms = MeterK14 ∨
      MeterKrms = MeterK12) ∧
    (PeakMeter.meter_level (fun q => q) exC9 1 MeterKrms =
      if 1 < exC9.kmeter.length + exC9.current_meters.midi ∧ exC9.current_meters.midi ≤ 1 then
        (((fun q : ℚ => q) (Ballistics.read (exC9.kmeter.getD (1 - exC9.current_meters.midi) 0)) : ℚ) : MFloat)
      else ⊥) ∧
    (PeakMeter.meter_level (fun q => q) exC9 5 MeterKrms =
      if 5 < exC9.kmeter.length + exC9.current_meters.midi ∧ exC9.current_meters.midi ≤ 5 then
        (((fun q : ℚ => q) (Ballistics.read (exC9.kmeter.getD (5 - exC9.current_meters.midi) 0)) : ℚ) : MFloat)
      else ⊥) :=
  ⟨by decide,
   (C9_meter_level (fun q => q) exC9 1 MeterKrms).1 (by decide),
   (C9_meter_level (fun q => q) exC9 5 MeterKrms).1 (by decide)⟩

/-! Lockstep lemmas for the unit arrays. -/

lemma audioFold_units (ops : DspOps) (bufs : BufferSet) (n_midi mtype : ℕ) :
    ∀ (m : ℕ) (t : PeakMeter),
      ((List.range m).foldl (audioStep ops bufs n_midi mtype) t).kmeter.length
        = t.kmeter.length ∧
      ((List.range m).foldl (audioStep ops bufs n_midi mtype) t).iec1meter.length
        = t.iec1meter.length ∧
      ((List.range m).foldl (audioStep ops bufs n_midi mtype) t).iec2meter.length
        = t.iec2meter.length ∧
      ((List.range m).foldl (audioStep ops bufs n_midi mtype) t).vumeter.length
        = t.vumeter.length := by
  intro m
  induction m with
  | zero => intro t; exact ⟨rfl, rfl, rfl, rfl⟩
  | succ m ih =>
      intro t
      obtain ⟨k1, k2, k3, k4⟩ := ih t
      have hstep : (List.range (m + 1)).foldl (audioStep ops bufs n_midi mtype) t
          = audioStep ops bufs n_midi mtype
              ((List.range m).foldl (audioStep ops bufs n_midi mtype) t) m := by
        rw [List.range_succ, List.foldl_append, List.foldl_cons, List.foldl_nil]
      rw [hstep]
      obtain ⟨-, -, -, -, -, -, -, -, u1, u2, u3, u4⟩ :=
        audioStep_facts ops bufs n_midi mtype
          ((List.range m).foldl (audioStep ops bufs n_midi mtype) t) m
      exact ⟨by rw [u1, k1], by rw [u2, k2], by rw [u3, k3], by rw [u4, k4]⟩

lemma run_units_len (ops : DspOps) (s : PeakMeter) (bufs : BufferSet) :
    (PeakMeter.run ops s bufs).kmeter.length = s.kmeter.length ∧
    (PeakMeter.run ops s bufs).iec1meter.length = s.iec1meter.length ∧
    (PeakMeter.run ops s bufs).iec2meter.length = s.iec2meter.length ∧
    (PeakMeter.run ops s bufs).vumeter.length = s.vumeter.length := by
  by_cases hact : s.active = false ∧ s.pending_active = false
  · unfold PeakMeter.run
    rw [if_pos hact]
    exact ⟨rfl, rfl, rfl, rfl⟩
  · unfold PeakMeter.run
    rw [if_neg hact]
    set nm := min s.current_meters.midi bufs.midi.length with hnm
    set na := min s.current_meters.audio bufs.audio.length with hna
    set ps1 := (List.range nm).foldl
      (fun l n => l.set n (max (midiVal (bufs.midi.getD n MidiBuffer.empty)) (l.getD n 0)))
      s.peak_signal with hps1
    set s1 : PeakMeter := { s with peak_signal := ps1 } with hs1
    obtain ⟨k1, k2, k3, k4⟩ := audioFold_units ops bufs nm s.meter_type na s1
    set F := (List.range na).foldl (audioStep ops bufs nm s.meter_type) s1 with hF
    refine ⟨?_, ?_, ?_, ?_⟩
    · show F.kmeter.length = s.kmeter.length
      rw [k1, hs1]
    · show F.iec1meter.length = s.iec1meter.length
      rw [k2, hs1]
    · show F.iec2meter.length = s.iec2meter.length
      rw [k3, hs1]
    · show F.vumeter.length = s.vumeter.length
      rw [k4, hs1]

lemma meter_units (dB sq : ℚ → ℚ) (cfg : ℚ) (s : PeakMeter) :
    (PeakMeter.meter dB sq cfg s).kmeter = s.kmeter ∧
    (PeakMeter.meter dB sq cfg s).iec1meter = s.iec1meter ∧
    (PeakMeter.meter dB sq cfg s).iec2meter = s.iec2meter ∧
    (PeakMeter.meter dB sq cfg s).vumeter = s.vumeter := by
  by_cases hact : s.active = false
  · rw [meter_of_inactive dB sq cfg s hact]
    exact ⟨rfl, rfl, rfl, rfl⟩
  by_cases hal : s.metricsAligned
  · rw [meter_eq_fold dB sq cfg s (by revert hact; cases s.active <;> simp) hal]
    obtain ⟨h1, h2, h3⟩ := hal
    obtain ⟨-, ⟨U1, U2, U3, U4, -, -, -, -⟩, -⟩ :=
      meterFold_spec dB sq (min s.peak_signal.length s.current_meters.midi)
        (cfg * (1 / 100)) (meterAudioFalloff s.meter_type cfg)
        (min s.peak_signal.length s.current_meters.n_total) s
        (Nat.min_le_left _ _) h1 h2 h3
    exact ⟨U1, U2, U3, U4⟩
  · rw [meter_of_misaligned dB sq cfg s hal]
    exact ⟨rfl, rfl, rfl, rfl⟩

lemma set_type_units_len (s : PeakMeter) (t : ℕ) :
    (PeakMeter.set_type s t).kmeter.length = s.kmeter.length ∧
    (PeakMeter.set_type s t).iec1meter.length = s.iec1meter.length ∧
    (PeakMeter.set_type s t).iec2meter.length = s.iec2meter.length ∧
    (PeakMeter.set_type s t).vumeter.length = s.vumeter.length := by
  by_cases hne : t = s.meter_type
  · unfold PeakMeter.set_type
    rw [if_pos hne]
    exact ⟨rfl, rfl, rfl, rfl⟩
  · unfold PeakMeter.set_type
    rw [if_neg hne]
    by_cases hK : t &&& kFamilyMask = 0 <;>
    by_cases h1 : t &&& iec1FamilyMask = 0 <;>
    by_cases h2 : t &&& iec2FamilyMask = 0 <;>
    by_cases hV : t &&& MeterVU = 0 <;>
      simp [hK, h1, h2, hV, resetFoldN_length]

lemma reflectFold_units_len :
    ∀ (L : List ℕ) (t : PeakMeter),
      ((L.foldl (fun t i =>
        if t.kmeter.length ≤ i then t
        else
          { t with kmeter := t.kmeter.set i (Ballistics.reset (t.kmeter.getD i 0)),
                   iec1meter := t.iec1meter.set i (Ballistics.reset (t.iec1meter.getD i 0)),
                   iec2meter := t.iec2meter.set i (Ballistics.reset (t.iec2meter.getD i 0)),
                   vumeter := t.vumeter.set i (Ballistics.reset (t.vumeter.getD i 0)) }) t).kmeter.length
        = t.kmeter.length) ∧
      ((L.foldl (fun t i =>
        if t.kmeter.length ≤ i then t
        else
          { t with kmeter := t.kmeter.set i (Ballistics.reset (t.kmeter.getD i 0)),
                   iec1meter := t.iec1meter.set i (Ballistics.reset (t.iec1meter.getD i 0)),
                   iec2meter := t.iec2meter.set i (Ballistics.reset (t.iec2meter.getD i 0)),
                   vumeter := t.vumeter.set i (Ballistics.reset (t.vumeter.getD i 0)) }) t).iec1meter.length
        = t.iec1meter.length) ∧
      ((L.foldl (fun t i =>
        if t.kmeter.length ≤ i then t
        else
          { t with kmeter := t.kmeter.set i (Ballistics.reset (t.kmeter.getD i 0)),
                   iec1meter := t.iec1meter.set i (Ballistics.reset (t.iec1meter.getD i 0)),
                   iec2meter := t.iec2meter.set i (Ballistics.reset (t.iec2meter.getD i 0)),
                   vumeter := t.vumeter.set i (Ballistics.reset (t.vumeter.getD i 0)) }) t).iec2meter.length
        = t.iec2meter.length) ∧
      ((L.foldl (fun t i =>
        if t.kmeter.length ≤ i then t
        else
          { t with kmeter := t.kmeter.set i (Ballistics.reset (t.kmeter.getD i 0)),
                   iec1meter := t.iec1meter.set i (Ballistics.reset (t.iec1meter.getD i 0)),
                   iec2meter := t.iec2meter.set i (Ballistics.reset (t.iec2meter.getD i 0)),
                   vumeter := t.vumeter.set i (Ballistics.reset (t.vumeter.getD i 0)) }) t).vumeter.length
        = t.vumeter.length) := by
  intro L
  induction L with
  | nil => intro t; exact ⟨rfl, rfl, rfl, rfl⟩
  | cons a L ih =>
      intro t
      rw [List.foldl_cons]
      by_cases hg : t.kmeter.length ≤ a
      · obtain ⟨k1, k2, k3, k4⟩ := ih t
        simp only [if_pos hg]
        exact ⟨k1, k2, k3, k4⟩
      · obtain ⟨k1, k2, k3, k4⟩ := ih
          { t with kmeter := t.kmeter.set a (Ballistics.reset (t.kmeter.getD a 0)),
                   iec1meter := t.iec1meter.set a (Ballistics.reset (t.iec1meter.getD a 0)),
                   iec2meter := t.iec2meter.set a (Ballistics.reset (t.iec2meter.getD a 0)),
                   vumeter := t.vumeter.set a (Ballistics.reset (t.vumeter.getD a 0)) }
        simp only [if_neg hg]
        refine ⟨?_, ?_, ?_, ?_⟩ <;>
          simp_all [List.length_set]

lemma reflect_inputs_units_len (s : PeakMeter) (inc : ChanCount) :
    (PeakMeter.reflect_inputs s inc).kmeter.length = s.kmeter.length ∧
    (PeakMeter.reflect_inputs s inc).iec1meter.length = s.iec1meter.length ∧
    (PeakMeter.reflect_inputs s inc).iec2meter.length = s.iec2meter.length ∧
    (PeakMeter.reflect_inputs s inc).vumeter.length = s.vumeter.length := by
  unfold PeakMeter.reflect_inputs
  set ps := (List.range' inc.n_total (s.current_meters.n_total - inc.n_total)).foldl
    (fun l i => if i < l.length then l.set i (0 : ℚ) else l) s.peak_signal with hps
  set s1 : PeakMeter := { s with peak_signal := ps } with hs1
  obtain ⟨k1, k2, k3, k4⟩ :=
    reflectFold_units_len (List.range' inc.audio (s.current_meters.audio - inc.audio)) s1
  set s2 := (List.range' inc.audio (s.current_meters.audio - inc.audio)).foldl
    (fun t i =>
      if t.kmeter.length ≤ i then t
      else
        { t with kmeter := t.kmeter.set i (Ballistics.reset (t.kmeter.getD i 0)),
                 iec1meter := t.iec1meter.set i (Ballistics.reset (t.iec1meter.getD i 0)),
                 iec2meter := t.iec2meter.set i (Ballistics.reset (t.iec2meter.getD i 0)),
                 vumeter := t.vumeter.set i (Ballistics.reset (t.vumeter.getD i 0)) }) s1
    with hs2
  obtain ⟨-, -, -, -, f5, f6, f7, f8, -, -, -, -, -, -, -⟩ :=
    reset_max_spec { s2 with current_meters := inc }
  refine ⟨?_, ?_, ?_, ?_⟩
  · show (PeakMeter.reset_max { s2 with current_meters := inc }).kmeter.length = s.kmeter.length
    rw [f5]
    show s2.kmeter.length = s.kmeter.length
    rw [k1, hs1]
  · show (PeakMeter.reset_max { s2 with current_meters := inc }).iec1meter.length = s.iec1meter.length
    rw [f6]
    show s2.iec1meter.length = s.iec1meter.length
    rw [k2, hs1]
  · show (PeakMeter.reset_max { s2 with current_meters := inc }).iec2meter.length = s.iec2meter.length
    rw [f7]
    show s2.iec2meter.length = s.iec2meter.length
    rw [k3, hs1]
  · show (PeakMeter.reset_max { s2 with current_meters := inc }).vumeter.length = s.vumeter.length
    rw [f8]
    show s2.vumeter.length = s.vumeter.length
    rw [k4, hs1]

lemma destroy_units_spec (s : PeakMeter) :
    (PeakMeter.destroy_units s).kmeter.length = 0 ∧
    (PeakMeter.destroy_units s).iec1meter.length = s.iec1meter.length - s.kmeter.length ∧
    (PeakMeter.destroy_units s).iec2meter.length = s.iec2meter.length - s.kmeter.length ∧
    (PeakMeter.destroy_units s).vumeter.length = s.vumeter.length - s.kmeter.length := by
  unfold PeakMeter.destroy_units
  obtain ⟨c1, c2, c3, c4, -, -, -, -, -, -, -, -⟩ := dropFoldUnits s.kmeter.length s
  exact ⟨by rw [c1]; omega, c2, c3, c4⟩

/-- C10: the four ballistics-family unit arrays move in lockstep: the
constructor state is aligned; from an aligned state alignment makes the
iteration bound `_kmeter.size()` (used by the destructor and `reset`)
in-bounds for all four arrays; every operation preserves the alignment; and
`reset_max_channels` resizes all four arrays to exactly the audio count. -/
theorem C10_units_lockstep (ops : DspOps) (dB sq : ℚ → ℚ) (cfg : ℚ)
    (bufs : BufferSet) (t : ℕ) (chn inc : ChanCount) (s : PeakMeter)
    (hm : s.metricsAligned) (hu : s.unitsAligned) :
    PeakMeter.initial.unitsAligned ∧
    (∀ i < s.kmeter.length,
      i < s.iec1meter.length ∧ i < s.iec2meter.length ∧ i < s.vumeter.length) ∧
    (PeakMeter.run ops s bufs).unitsAligned ∧
    (PeakMeter.meter dB sq cfg s).unitsAligned ∧
    (PeakMeter.reset s).unitsAligned ∧
    (PeakMeter.reset_max s).unitsAligned ∧
    (PeakMeter.set_type s t).unitsAligned ∧
    (PeakMeter.reflect_inputs s inc).unitsAligned ∧
    (PeakMeter.destroy_units s).unitsAligned ∧
    ((PeakMeter.reset_max_channels s chn).kmeter.length = chn.audio ∧
     (PeakMeter.reset_max_channels s chn).iec1meter.length = chn.audio ∧
     (PeakMeter.reset_max_channels s chn).iec2meter.length = chn.audio ∧
     (PeakMeter.reset_max_channels s chn).vumeter.length = chn.audio) ∧
    (PeakMeter.reset_max_channels s chn).unitsAligned ∧
    ((PeakMeter.configure_io_impl s chn chn).2).unitsAligned := by
  obtain ⟨hu1, hu2, hu3⟩ := hu
  have hrmc := reset_max_channels_spec s chn ⟨hm.1, hm.2.1, hm.2.2⟩ ⟨hu1, hu2, hu3⟩
  refine ⟨⟨rfl, rfl, rfl⟩, ?_, ?_, ?_, ?_, ?_, ?_, ?_, ?_, ?_, ?_, ?_⟩
  · intro i hi
    omega
  · obtain ⟨r1, r2, r3, r4⟩ := run_units_len ops s bufs
    exact ⟨by rw [r2, r1, hu1], by rw [r3, r1, hu2], by rw [r4, r1, hu3]⟩
  · obtain ⟨r1, r2, r3, r4⟩ := meter_units dB sq cfg s
    exact ⟨by rw [r2, r1, hu1], by rw [r3, r1, hu2], by rw [r4, r1, hu3]⟩
  · obtain ⟨-, -, -, -, r1, r2, r3, r4, -, -, -, -, -⟩ := reset_spec s
    exact ⟨by rw [r2, r1, hu1], by rw [r3, r1, hu2], by rw [r4, r1, hu3]⟩
  · obtain ⟨-, -, -, -, r1, r2, r3, r4, -, -, -, -, -, -, -⟩ := reset_max_spec s
    exact ⟨by rw [r2, r1, hu1], by rw [r3, r1, hu2], by rw [r4, r1, hu3]⟩
  · obtain ⟨r1, r2, r3, r4⟩ := set_type_units_len s t
    exact ⟨by rw [r2, r1, hu1], by rw [r3, r1, hu2], by rw [r4, r1, hu3]⟩
  · obtain ⟨r1, r2, r3, r4⟩ := reflect_inputs_units_len s inc
    exact ⟨by rw [r2, r1, hu1], by rw [r3, r1, hu2], by rw [r4, r1, hu3]⟩
  · obtain ⟨r1, r2, r3, r4⟩ := destroy_units_spec s
    exact ⟨by rw [r2, r1]; omega, by rw [r3, r1]; omega, by rw [r4, r1]; omega⟩
  · exact ⟨hrmc.2.2.2.2.1, hrmc.2.2.2.2.2.1, hrmc.2.2.2.2.2.2.1, hrmc.2.2.2.2.2.2.2.1⟩
  · refine ⟨?_, ?_, ?_⟩
    · rw [hrmc.2.2.2.2.2.1, hrmc.2.2.2.2.1]
    · rw [hrmc.2.2.2.2.2.2.1, hrmc.2.2.2.2.1]
    · rw [hrmc.2.2.2.2.2.2.2.1, hrmc.2.2.2.2.1]
  · unfold PeakMeter.configure_io_impl
    rw [if_neg (by simp)]
    have hrmc2 := reset_max_channels_spec { s with current_meters := chn } chn
      ⟨hm.1, hm.2.1, hm.2.2⟩ ⟨hu1, hu2, hu3⟩
    exact ⟨by rw [hrmc2.2.2.2.2.2.1, hrmc2.2.2.2.2.1],
      by rw [hrmc2.2.2.2.2.2.2.1, hrmc2.2.2.2.2.1],
      by rw [hrmc2.2.2.2.2.2.2.2.1, hrmc2.2.2.2.2.1]⟩

/-- C10 witness: the concrete aligned two-unit state stays aligned under
every operation, and reconfiguring to 1 MIDI + 2 audio channels sizes all
four unit arrays to 2. -/
theorem C10_witness :
    exC10.metricsAligned ∧ exC10.unitsAligned ∧
    (PeakMeter.initial.unitsAligned ∧
    (∀ i < exC10.kmeter.length,
      i < exC10.iec1meter.length ∧ i < exC10.iec2meter.length ∧ i < exC10.vumeter.length) ∧
    (PeakMeter.run opsC10 exC10 ⟨[], []⟩).unitsAligned ∧
    (PeakMeter.meter (fun q => q) (fun q => q) 0 exC10).unitsAligned ∧
    (PeakMeter.reset exC10).unitsAligned ∧
    (PeakMeter.reset_max exC10).unitsAligned ∧
    (PeakMeter.set_type exC10 MeterVU).unitsAligned ∧
    (PeakMeter.reflect_inputs exC10 ⟨0, 1⟩).unitsAligned ∧
    (PeakMeter.destroy_units exC10).unitsAligned ∧
    ((PeakMeter.reset_max_channels exC10 ⟨1, 2⟩).kmeter.length = (⟨1, 2⟩ : ChanCount).audio ∧
     (PeakMeter.reset_max_channels exC10 ⟨1, 2⟩).iec1meter.length = (⟨1, 2⟩ : ChanCount).audio ∧
     (PeakMeter.reset_max_channels exC10 ⟨1, 2⟩).iec2meter.length = (⟨1, 2⟩ : ChanCount).audio ∧
     (PeakMeter.reset_max_channels exC10 ⟨1, 2⟩).vumeter.length = (⟨1, 2⟩ : ChanCount).audio) ∧
    (PeakMeter.reset_max_channels exC10 ⟨1, 2⟩).unitsAligned ∧
    ((PeakMeter.configure_io_impl exC10 ⟨1, 2⟩ ⟨1, 2⟩).2).unitsAligned) :=
  ⟨by decide, by decide,
   C10_units_lockstep opsC10 (fun q => q) (fun q => q) 0 ⟨[], []⟩ MeterVU ⟨1, 2⟩ ⟨0, 1⟩
     exC10 (by decide) (by decide)⟩
